import Mathlib

/-!
Verification of the DOSBox Staging debug-trace subsystem
(`src/debug_trace/…`): a shallow embedding of the trace-activation state
machine and the event-logging pipeline, together with proofs of the
behavioural properties stated in the design specification.

The embedding models the C++ sources line by line:
  * `game_trace.cpp`   — global state, timing, exclusion filter, lifecycle;
  * `exec_logger.cpp`  — EXEC detection and trace activation;
  * file-I/O logger    — handle map, pending read, hex dumps;
  * `instruction_logger.cpp`, `interrupt_logger.cpp`,
    `video_mode_logger.cpp` — per-event formatting.

Machine integers are modelled as `Nat`/`Int` with explicit `% 2^w`
truncation where the C code relies on a fixed width; `printf`-style
formatting is modelled by explicit digit-list functions.
-/

/-! ## printf-style formatting helpers -/

/-- Digit character for a value `0 ≤ n < 16`, uppercase (as produced by
the `%X`/`%u` conversions used throughout the loggers). -/
def hexDigitCh (n : Nat) : Char :=
  if n < 10 then Char.ofNat (48 + n) else Char.ofNat (55 + n)

/-- Fuel-driven digit printer: digits of `n` in base `b`, most significant
first, prepended to `acc`.  Structural on the fuel so that it reduces by
`rfl`/`decide`. -/
def digitsAux (b : Nat) : Nat → Nat → List Char → List Char
  | 0, _, acc => acc
  | fuel + 1, n, acc =>
    let d := hexDigitCh (n % b)
    if n < b then d :: acc else digitsAux b fuel (n / b) (d :: acc)

/-- Decimal rendering of a natural number (`%u`). -/
def decStr (n : Nat) : String := String.mk (digitsAux 10 (n + 1) n [])

/-- Decimal rendering of an integer (`%d`). -/
def intStr (i : Int) : String :=
  if i < 0 then "-" ++ decStr i.natAbs else decStr i.natAbs

/-- Uppercase hexadecimal rendering of a natural number (`%X`). -/
def hexStr (n : Nat) : String := String.mk (digitsAux 16 (n + 1) n [])

/-- Left-pad a string with `c` up to width `w` (printf zero padding). -/
def padLeft (c : Char) (w : Nat) (s : String) : String :=
  String.mk (List.replicate (w - s.length) c) ++ s

/-- `%08u`: decimal, zero-padded to at least eight characters. -/
def pad8 (n : Nat) : String := padLeft '0' 8 (decStr n)

/-- `%02X` of a byte value. -/
def hex2 (n : Nat) : String := padLeft '0' 2 (hexStr n)

/-- `%04X` of a 16-bit value. -/
def hex4 (n : Nat) : String := padLeft '0' 4 (hexStr n)

/-- The `[T+########ms]` stamp that opens every event line. -/
def tstamp (t : Nat) : String := "[T+" ++ pad8 t ++ "ms]"

/-! ### Length bounds for the digit printers -/

theorem digitsAux_length_le (b : Nat) (hb : 2 ≤ b) :
    ∀ (fuel n : Nat) (acc : List Char) (k : Nat),
      n < fuel → n < b ^ k → 0 < k →
      (digitsAux b fuel n acc).length ≤ k + acc.length := by
  intro fuel
  induction fuel with
  | zero => intro n acc k hfu _ _; exact absurd hfu (Nat.not_lt_zero n)
  | succ fuel ih =>
    intro n acc k hfu hnk hk
    by_cases hsmall : n < b
    · simp only [digitsAux, hsmall, if_true, List.length_cons]
      omega
    · simp only [digitsAux, hsmall, if_false]
      have hn0 : 0 < n := by omega
      have hdiv_fuel : n / b < fuel := by
        have h1 : n / b < n := Nat.div_lt_self hn0 (by omega)
        omega
      have hk2 : 2 ≤ k := by
        by_contra hcon
        have hk1 : k = 1 := by omega
        subst hk1
        rw [pow_one] at hnk
        exact hsmall hnk
      have hdiv_pow : n / b < b ^ (k - 1) := by
        apply Nat.div_lt_of_lt_mul
        have hrw : b * b ^ (k - 1) = b ^ k := by
          rw [← pow_succ']
          congr 1
          omega
        rw [hrw]
        exact hnk
      have := ih (n / b) (hexDigitCh (n % b) :: acc) (k - 1) hdiv_fuel hdiv_pow (by omega)
      simp only [List.length_cons] at this
      omega

theorem decStr_length_le (n k : Nat) (hk : 0 < k) (h : n < 10 ^ k) :
    (decStr n).length ≤ k := by
  have := digitsAux_length_le 10 (by omega) (n + 1) n [] k (by omega) h hk
  simpa [decStr, String.length_mk] using this

theorem pad8_length_le (n : Nat) (h : n < 10 ^ 20) : (pad8 n).length ≤ 20 := by
  have hd := decStr_length_le n 20 (by omega) h
  have : (pad8 n).length = (8 - (decStr n).length) + (decStr n).length := by
    simp [pad8, padLeft, String.length_append, String.length_mk]
  omega

/-! ## Data model

`TraceConfig` mirrors the `TraceConfig` struct of `game_trace.cpp`
(`[debugtrace]` section values); `GTState` gathers the translation-unit
globals of `game_trace.cpp`, `instruction_logger.cpp` and the file-I/O
logger into one record, plus the list of lines handed to
`DEBUGTRACE_Write` (the log sink). -/

structure TraceConfig where
  enabled : Bool
  logfile : String
  trace_instructions : Bool
  trace_interrupts : Bool
  trace_file_io : Bool
  trace_video_modes : Bool
  auto_trace_on_exec : Bool
  exclude_interrupts : String
  file_read_hex_dump : Int
  instruction_sample_rate : Int
  max_log_size_mb : Int

structure GTState where
  g_trace_enabled : Bool
  g_debugtrace_system_ready : Bool
  g_log_open : Bool
  g_log_is_stdout : Bool
  g_own_file : Bool
  g_epoch : Nat
  g_epoch_set : Bool
  s_exec_depth : Int
  s_handle_map : Nat → Option String
  pending_active : Bool
  pending_handle : Nat
  pending_requested : Nat
  pending_ds : Nat
  pending_dx : Nat
  s_sample_counter : Int
  log : List String

/-- CPU register snapshot supplied by the emulator core (an external
collaborator): the values of the named 16-bit registers with flags
already materialised (`FillFlags`). -/
structure Regs where
  ax : Nat
  bx : Nat
  cx : Nat
  dx : Nat
  si : Nat
  di : Nat
  bp : Nat
  sp : Nat
  ds : Nat
  es : Nat
  ss : Nat
  flags : Nat

/-- `DOS_FILES` is declared in `dos/dos.h` (outside this subsystem); the
comment in the file-I/O logger fixes the valid handle range as 0–254,
i.e. `DOS_FILES = 255`. -/
def DOS_FILES : Nat := 255

/-! ## game_trace.cpp — timing, sink, exclusion filter -/

/-- `DEBUGTRACE_GetElapsedMs`: 0 before any epoch was set, otherwise the
milliseconds since the epoch, truncated to `uint64_t`.  `now` is the
current monotonic-clock reading in ms. -/
def DEBUGTRACE_GetElapsedMs (st : GTState) (now : Nat) : Nat :=
  if st.g_epoch_set then (now - st.g_epoch) % 2 ^ 64 else 0

/-- `DEBUGTRACE_Write`: append one line to the log sink. -/
def DEBUGTRACE_Write (st : GTState) (line : String) : GTState :=
  { st with log := st.log ++ [line] }

/-- `set_epoch_now` (anonymous namespace of `game_trace.cpp`). -/
def set_epoch_now (now : Nat) (st : GTState) : GTState :=
  { st with g_epoch := now, g_epoch_set := true }

/-- The comma-splitting loop of `DEBUGTRACE_IsInterruptExcluded`:
tokens are the runs between commas; after consuming a comma the loop
only continues while characters remain, so a trailing empty token is
dropped (`pos = comma + 1; pos < excl.size()`). -/
def cppTokens : List Char → List Char → List (List Char)
  | cur, [] => [cur.reverse]
  | cur, c :: r =>
    if c = ',' then
      if r = [] then [cur.reverse] else cur.reverse :: cppTokens [] r
    else
      cppTokens (c :: cur) r

/-- C `toupper` in the C locale. -/
def cToUpper (c : Char) : Char :=
  if 'a' ≤ c ∧ c ≤ 'z' then Char.ofNat (c.toNat - 32) else c

/-- The two-digit uppercase hex form `snprintf(hex, 3, "%02X", int_num)`
of a byte value, as a character list. -/
def hexByteChars (n : Nat) : List Char :=
  [hexDigitCh (n % 256 / 16), hexDigitCh (n % 16)]

/-- Token comparison of `DEBUGTRACE_IsInterruptExcluded`: the token
matches iff it has exactly two characters and both compare equal to the
formatted hex digits under `toupper`. -/
def tokMatches (h0 h1 : Char) : List Char → Bool
  | [a, b] => cToUpper a = cToUpper h0 ∧ cToUpper b = cToUpper h1
  | _ => false

/-- `DEBUGTRACE_IsInterruptExcluded(int_num)`. -/
def DEBUGTRACE_IsInterruptExcluded (cfg : TraceConfig) (int_num : Nat) : Bool :=
  let excl := cfg.exclude_interrupts.data
  if excl.isEmpty then
    false
  else
    match hexByteChars int_num with
    | [h0, h1] => (cppTokens [] excl).any (tokMatches h0 h1)
    | _ => false

/-! ## game_trace.cpp — lifecycle and exec-depth tracking -/

/-- Line emitted by `DEBUGTRACE_OnProgramTerminate`. -/
def terminatedLine (t : Nat) (rc : Nat) (d : Int) : String :=
  tstamp t ++ " === PROGRAM TERMINATED (exit code " ++ decStr rc ++
    ", remaining depth " ++ intStr d ++ ") ==="

def deactivatedMarker : String :=
  "[debugtrace] === TRACE LOGGING DEACTIVATED (program exited) ==="

def startedMarker : String := "[debugtrace] === TRACE LOGGING STARTED ==="

def endedMarker : String := "[debugtrace] === TRACE LOGGING ENDED ==="

def activatedMarker : String := "[debugtrace] === FULL TRACE LOGGING ACTIVATED ==="

/-- `DEBUGTRACE_ActivateTrace`. -/
def DEBUGTRACE_ActivateTrace (now : Nat) (st : GTState) : GTState :=
  if st.g_trace_enabled then st
  else { (set_epoch_now now st) with g_trace_enabled := true }

/-- `DEBUGTRACE_OnExecDepthPush`. -/
def DEBUGTRACE_OnExecDepthPush (st : GTState) : GTState :=
  if st.g_trace_enabled then { st with s_exec_depth := st.s_exec_depth + 1 }
  else st

/-- `DEBUGTRACE_OnProgramTerminate(return_code)`: ignored while
disabled; otherwise decrement the depth, print the termination line and
— when the decremented depth is ≤ 0 — clamp to 0, disable and print the
deactivation marker. -/
def DEBUGTRACE_OnProgramTerminate (return_code : Nat) (now : Nat) (st : GTState) :
    GTState :=
  if !st.g_trace_enabled then st
  else
    let d := st.s_exec_depth - 1
    let st1 := { st with s_exec_depth := d }
    let st2 := DEBUGTRACE_Write st1
      (terminatedLine (DEBUGTRACE_GetElapsedMs st1 now) (return_code % 256) d)
    if d ≤ 0 then
      DEBUGTRACE_Write
        { st2 with s_exec_depth := 0, g_trace_enabled := false } deactivatedMarker
    else st2

/-! ## File-I/O logger (handle map, pending read, hex dumps) -/

/-- `FileIOLogger_Init`. -/
def FileIOLogger_Init (st : GTState) : GTState :=
  { st with s_handle_map := fun _ => none, pending_active := false }

/-- `FileIOLogger_Shutdown`. -/
def FileIOLogger_Shutdown (st : GTState) : GTState :=
  { st with s_handle_map := fun _ => none, pending_active := false }

/-- `FileIOLogger_RecordHandle(handle, filename)`: out-of-range handles
are rejected; a null or empty filename records nothing (`filename &&
filename[0]`). -/
def FileIOLogger_RecordHandle (handle : Nat) (filename : Option String)
    (st : GTState) : GTState :=
  if DOS_FILES ≤ handle then st
  else
    match filename with
    | some f =>
      if f ≠ "" then
        { st with s_handle_map := fun h => if h = handle then some f
                                           else st.s_handle_map h }
      else st
    | none => st

/-- `lookup_filename(handle)`. -/
def lookup_filename (st : GTState) (handle : Nat) : String :=
  match st.s_handle_map handle with
  | some f => f
  | none => "<unknown>"

/-- `hex_dump(data, len, out, out_size)`: writes `"%02X "` per byte while
three characters still fit before the terminator (`wp + 3 <= end`, with
`end = out + out_size - 1`), then trims the trailing space.  The number
of bytes written is therefore `min len ((out_size - 1) / 3)`. -/
def hex_dump (data : List Nat) (out_size : Nat) : String :=
  let k := min data.length ((out_size - 1) / 3)
  let cs := ((data.take k).map (fun b => (hex2 (b % 256)).data ++ [' '])).flatten
  String.mk (if k = 0 then [] else cs.dropLast)

def createLine (t : Nat) (filename : Option String) (cx_attrib : Nat) : String :=
  tstamp t ++ " FILE CREATE: \"" ++ filename.getD "" ++ "\" attributes=0x" ++
    hex4 (cx_attrib % 65536)

/-- `FileIOLogger_LogCreate`. -/
def FileIOLogger_LogCreate (filename : Option String) (cx_attrib : Nat)
    (now : Nat) (st : GTState) : GTState :=
  DEBUGTRACE_Write st (createLine (DEBUGTRACE_GetElapsedMs st now) filename cx_attrib)

/-- Access-mode text derived from the low two bits of the AL mode byte. -/
def openModeStr (al_mode : Nat) : String :=
  match al_mode % 4 with
  | 0 => "read-only"
  | 1 => "write-only"
  | 2 => "read-write"
  | _ => "unknown"

def openLine (t : Nat) (filename : Option String) (al_mode : Nat) : String :=
  tstamp t ++ " FILE OPEN: \"" ++ filename.getD "" ++ "\" mode=" ++
    openModeStr al_mode ++ " (AL=0x" ++ hex2 (al_mode % 256) ++ ")"

/-- `FileIOLogger_LogOpen`. -/
def FileIOLogger_LogOpen (filename : Option String) (al_mode : Nat)
    (now : Nat) (st : GTState) : GTState :=
  DEBUGTRACE_Write st (openLine (DEBUGTRACE_GetElapsedMs st now) filename al_mode)

def closeLine (t : Nat) (name : String) (handle : Nat) : String :=
  tstamp t ++ " FILE CLOSE: \"" ++ name ++ "\" (handle=" ++ decStr handle ++ ")"

/-- `FileIOLogger_LogClose(handle)`: look up the name, emit the line,
then remove the mapping (removal strictly after the lookup used by the
line). -/
def FileIOLogger_LogClose (handle : Nat) (now : Nat) (st : GTState) : GTState :=
  let st1 := DEBUGTRACE_Write st
    (closeLine (DEBUGTRACE_GetElapsedMs st now) (lookup_filename st handle) handle)
  { st1 with s_handle_map := fun h => if h = handle then none
                                      else st1.s_handle_map h }

def readLine (t : Nat) (name : String) (handle req ds dx : Nat) : String :=
  tstamp t ++ " FILE READ: \"" ++ name ++ "\" (handle=" ++ decStr handle ++
    ") requested=" ++ decStr req ++ " buffer=" ++ hex4 (ds % 65536) ++ ":" ++
    hex4 (dx % 65536)

/-- `FileIOLogger_LogReadPre`. -/
def FileIOLogger_LogReadPre (handle requested_bytes ds_seg dx_off : Nat)
    (now : Nat) (st : GTState) : GTState :=
  let st1 := { st with pending_active := true,
                       pending_handle := handle,
                       pending_requested := requested_bytes,
                       pending_ds := ds_seg,
                       pending_dx := dx_off }
  DEBUGTRACE_Write st1
    (readLine (DEBUGTRACE_GetElapsedMs st1 now) (lookup_filename st1 handle)
      handle requested_bytes ds_seg dx_off)

def readResultLine (t : Nat) (name : String) (handle actual : Nat) : String :=
  tstamp t ++ " FILE READ RESULT: \"" ++ name ++ "\" (handle=" ++
    decStr handle ++ ") actual=" ++ decStr actual

/-- Prefix of the hex-dump line
(`"[T+%08ums] FILE DATA [first %d bytes]: "`). -/
def dataLinePre (t : Nat) (to_read : Nat) : String :=
  tstamp t ++ " FILE DATA [first " ++ decStr to_read ++ " bytes]: "

/-- `FileIOLogger_LogReadPost(handle, actual_bytes, buf_phys)`:
unmatched results only clear the pending slot; matched results emit the
result line and, when `min(hex-dump-config, actual)` is positive, a data
line holding the first `min(dump_bytes, 512)` bytes read from emulated
memory at `buf_phys` (local buffer `uint8_t buf[512]`), formatted by
`hex_dump` into the space left in `char hex_line[512 * 3 + 64]` after
the prefix. -/
def FileIOLogger_LogReadPost (handle actual_bytes buf_phys : Nat)
    (mem : Nat → Nat) (now : Nat) (cfg : TraceConfig) (st : GTState) : GTState :=
  if !st.pending_active || st.pending_handle ≠ handle then
    { st with pending_active := false }
  else
    let st1 := { st with pending_active := false }
    let st2 := DEBUGTRACE_Write st1
      (readResultLine (DEBUGTRACE_GetElapsedMs st1 now)
        (lookup_filename st1 handle) handle actual_bytes)
    let dump_bytes : Int := min cfg.file_read_hex_dump (actual_bytes : Int)
    if dump_bytes ≤ 0 then st2
    else
      let to_read : Nat := (min dump_bytes 512).toNat
      let buf : List Nat := (List.range to_read).map (fun i => mem (buf_phys + i) % 256)
      let pre := dataLinePre (DEBUGTRACE_GetElapsedMs st2 now) to_read
      let hex_line := pre ++ hex_dump buf (512 * 3 + 64 - pre.length)
      DEBUGTRACE_Write st2 hex_line

/-! ## exec_logger.cpp -/

/-- Modelled from the spec: `DEBUGTRACE_TraceOnInteractiveExecOnly` is
declared in `game_trace.h` and called by `ExecLogger_Log`, but its
definition is missing from the tree (and `DEBUGTRACE_AddConfigSection`
never registers the corresponding option).  Per the specification the
`trace_on_interactive_exec_only` option is a boolean defaulting to
`true`; the accessor result is therefore passed to `ExecLogger_Log` as
the explicit parameter `interactive_only`, with this default. -/
def trace_on_interactive_exec_only_default : Bool := true

def execLine (t : Nat) (filename cmdline : Option String) (ss_val : Nat) : String :=
  tstamp t ++ " === PROGRAM EXEC: \"" ++ filename.getD "" ++ "\" args=\"" ++
    cmdline.getD "" ++ "\" PSP=" ++ hex4 (ss_val % 65536) ++ " ==="

/-- `ExecLogger_Log(filename, cmdline)`.  `interactive` is the result of
the `DOS_ShellIsInteractive()` collaborator call; `interactive_only` the
result of `DEBUGTRACE_TraceOnInteractiveExecOnly()` (see above);
`ss_val` the current SS segment value. -/
def ExecLogger_Log (filename cmdline : Option String)
    (interactive interactive_only : Bool) (ss_val now : Nat)
    (cfg : TraceConfig) (st : GTState) : GTState :=
  if !st.g_debugtrace_system_ready then st
  else
    let was_already_active := st.g_trace_enabled
    let st1 :=
      if !was_already_active && cfg.auto_trace_on_exec then
        let may_activate := if interactive_only then interactive else true
        if may_activate then DEBUGTRACE_ActivateTrace now st else st
      else st
    if !st1.g_trace_enabled then st1
    else
      let st2 := DEBUGTRACE_OnExecDepthPush st1
      let st3 := DEBUGTRACE_Write st2
        (execLine (DEBUGTRACE_GetElapsedMs st2 now) filename cmdline ss_val)
      if !was_already_active && cfg.auto_trace_on_exec then
        DEBUGTRACE_Write st3 activatedMarker
      else st3

/-! ## instruction_logger.cpp -/

/-- The 8 opcode bytes fetched for display, under 20-bit real-mode
address wrapping applied per byte. -/
def opcodeBytes (cs_val ip_val : Nat) (mem : Nat → Nat) : List Nat :=
  let phys_base := (cs_val % 65536) * 16 % 0x100000
  let phys_ip := (phys_base + ip_val % 65536) % 0x100000
  (List.range 8).map (fun i => mem ((phys_ip + i) % 0x100000) % 256)

/-- Space-separated uppercase two-digit hex rendering (the
`opcode_hex` buffer: eight `"%02X "` writes with the trailing space
trimmed; the buffer `char[8 * 3 + 1]` always holds all eight). -/
def bytesField : List Nat → String
  | [] => ""
  | [b] => hex2 (b % 256)
  | b :: r => hex2 (b % 256) ++ " " ++ bytesField r

/-- `%-23s`: left-justify to a minimum width of 23. -/
def padRight (w : Nat) (s : String) : String :=
  s ++ String.mk (List.replicate (w - s.length) ' ')

def instrLine (t : Nat) (cs_val ip_val : Nat) (bytes : List Nat) (r : Regs) : String :=
  tstamp t ++ " CS:IP=" ++ hex4 (cs_val % 65536) ++ ":" ++ hex4 (ip_val % 65536) ++
    "  BYTES=" ++ padRight 23 (bytesField bytes) ++
    "  AX=" ++ hex4 (r.ax % 65536) ++ " BX=" ++ hex4 (r.bx % 65536) ++
    " CX=" ++ hex4 (r.cx % 65536) ++ " DX=" ++ hex4 (r.dx % 65536) ++
    " SI=" ++ hex4 (r.si % 65536) ++ " DI=" ++ hex4 (r.di % 65536) ++
    " BP=" ++ hex4 (r.bp % 65536) ++ " SP=" ++ hex4 (r.sp % 65536) ++
    " DS=" ++ hex4 (r.ds % 65536) ++ " ES=" ++ hex4 (r.es % 65536) ++
    " SS=" ++ hex4 (r.ss % 65536) ++ " FL=" ++ hex4 (r.flags % 65536)

/-- `InstructionLogger_Log(cs_val, ip_val)`: the `s_sample_counter`
gate, then the formatted register/opcode line. -/
def InstructionLogger_Log (cs_val ip_val : Nat) (regs : Regs) (mem : Nat → Nat)
    (now : Nat) (cfg : TraceConfig) (st : GTState) : GTState :=
  let sample_rate := cfg.instruction_sample_rate
  let emit := fun (s : GTState) => DEBUGTRACE_Write s
    (instrLine (DEBUGTRACE_GetElapsedMs s now) cs_val ip_val
      (opcodeBytes cs_val ip_val mem) regs)
  if 1 < sample_rate then
    let c := st.s_sample_counter + 1
    if c < sample_rate then { st with s_sample_counter := c }
    else emit { st with s_sample_counter := 0 }
  else emit st

/-! ## interrupt_logger.cpp -/

def describe_int21 (ah : Nat) : String :=
  match ah with
  | 0x00 => "Terminate Program"
  | 0x01 => "Read Char (STDIN, echo)"
  | 0x02 => "Write Char (STDOUT)"
  | 0x06 => "Direct Console I/O"
  | 0x08 => "Read Char (STDIN, no echo)"
  | 0x09 => "Write String"
  | 0x0A => "Buffered Keyboard Input"
  | 0x0B => "Check Keyboard Status"
  | 0x0C => "Flush Buffer, Read Keyboard"
  | 0x0D => "Disk Reset"
  | 0x0E => "Select Drive"
  | 0x19 => "Get Current Drive"
  | 0x1A => "Set DTA"
  | 0x25 => "Set Interrupt Vector"
  | 0x26 => "Create New PSP"
  | 0x2A => "Get Date"
  | 0x2B => "Set Date"
  | 0x2C => "Get Time"
  | 0x2D => "Set Time"
  | 0x2F => "Get DTA"
  | 0x30 => "Get DOS Version"
  | 0x33 => "Extended Break Handling"
  | 0x35 => "Get Interrupt Vector"
  | 0x36 => "Get Free Disk Space"
  | 0x39 => "Create Directory"
  | 0x3A => "Remove Directory"
  | 0x3B => "Change Directory"
  | 0x3C => "Create/Truncate File"
  | 0x3D => "Open File"
  | 0x3E => "Close File"
  | 0x3F => "Read File/Device"
  | 0x40 => "Write File/Device"
  | 0x41 => "Delete File"
  | 0x42 => "Seek File"
  | 0x43 => "Get/Set File Attributes"
  | 0x44 => "IOCTL"
  | 0x45 => "Duplicate File Handle"
  | 0x46 => "Force Duplicate File Handle"
  | 0x47 => "Get Current Directory"
  | 0x48 => "Allocate Memory"
  | 0x49 => "Free Memory"
  | 0x4A => "Resize Memory Block"
  | 0x4B => "EXEC Load/Execute Program"
  | 0x4C => "Terminate with Return Code"
  | 0x4D => "Get Return Code"
  | 0x4E => "Find First File"
  | 0x4F => "Find Next File"
  | 0x56 => "Rename File"
  | 0x57 => "Get/Set File Date&Time"
  | 0x59 => "Get Extended Error"
  | 0x5A => "Create Temp File"
  | 0x5B => "Create New File"
  | 0x5C => "Lock/Unlock File Region"
  | 0x5E => "Network Functions"
  | 0x5F => "Redirection Functions"
  | 0x62 => "Get Current PSP"
  | 0x6C => "Extended Open/Create"
  | _ => "DOS Function"

def describe_int10 (ah : Nat) : String :=
  match ah with
  | 0x00 => "Set Video Mode"
  | 0x01 => "Set Text-Mode Cursor Shape"
  | 0x02 => "Set Cursor Position"
  | 0x03 => "Get Cursor Position/Shape"
  | 0x04 => "Read Light Pen"
  | 0x05 => "Set Display Page"
  | 0x06 => "Scroll Window Up"
  | 0x07 => "Scroll Window Down"
  | 0x08 => "Read Char/Attribute at Cursor"
  | 0x09 => "Write Char/Attribute at Cursor"
  | 0x0A => "Write Char at Cursor"
  | 0x0B => "Set Color Palette"
  | 0x0C => "Write Graphics Pixel"
  | 0x0D => "Read Graphics Pixel"
  | 0x0E => "Teletype Output"
  | 0x0F => "Get Current Video Mode"
  | 0x10 => "Set/Get Palette Registers"
  | 0x11 => "Character Generator Functions"
  | 0x12 => "Video Subsystem Configuration"
  | 0x13 => "Write String"
  | 0x1A => "Video Display Combination"
  | 0x1B => "Get Video State"
  | 0x1C => "Save/Restore Video State"
  | 0x4F => "VESA/VBE Functions"
  | _ => "Video BIOS Function"

def describe_int13 (ah : Nat) : String :=
  match ah with
  | 0x00 => "Reset Disk"
  | 0x01 => "Get Disk Status"
  | 0x02 => "Read Sectors"
  | 0x03 => "Write Sectors"
  | 0x04 => "Verify Sectors"
  | 0x08 => "Get Drive Parameters"
  | 0x0C => "Seek"
  | 0x15 => "Get Drive Type"
  | 0x41 => "Check Extensions Present"
  | 0x42 => "Extended Read Sectors"
  | 0x43 => "Extended Write Sectors"
  | _ => "Disk BIOS Function"

def describe_int16 (ah : Nat) : String :=
  match ah with
  | 0x00 => "Read Keystroke"
  | 0x01 => "Check Keystroke Buffer"
  | 0x02 => "Get Shift Flags"
  | 0x03 => "Set Repeat Rate"
  | 0x10 => "Read Extended Keystroke"
  | 0x11 => "Check Extended Keystroke"
  | 0x12 => "Get Extended Shift Flags"
  | _ => "Keyboard BIOS Function"

def describe_int33 (ax_lo : Nat) : String :=
  match ax_lo with
  | 0x00 => "Mouse Reset/Get Status"
  | 0x01 => "Show Mouse Cursor"
  | 0x02 => "Hide Mouse Cursor"
  | 0x03 => "Get Mouse Position/Button"
  | 0x04 => "Set Mouse Position"
  | 0x05 => "Get Button Press Info"
  | 0x06 => "Get Button Release Info"
  | 0x07 => "Set X Range"
  | 0x08 => "Set Y Range"
  | 0x0B => "Read Mouse Motion Counters"
  | 0x0C => "Set Interrupt Subroutine"
  | 0x0F => "Set Mickey/Pixel Ratio"
  | _ => "Mouse Function"

def describe_interrupt (int_num ah al : Nat) : String :=
  match int_num with
  | 0x10 => describe_int10 ah
  | 0x13 => describe_int13 ah
  | 0x16 => describe_int16 ah
  | 0x21 => describe_int21 ah
  | 0x33 => describe_int33 al
  | 0x08 => "Timer IRQ"
  | 0x09 => "Keyboard IRQ"
  | 0x1C => "Timer Tick"
  | 0x2F => "Multiplex Interrupt"
  | _ => ""

def intrLine (t : Nat) (int_num : Nat) (r : Regs) : String :=
  let ah := r.ax / 256 % 256
  let al := r.ax % 256
  let desc := describe_interrupt (int_num % 256) ah al
  let desc_field := if desc ≠ "" then " (" ++ desc ++ ")" else ""
  tstamp t ++ " >> INT " ++ hex2 (int_num % 256) ++ "h AH=" ++ hex2 ah ++
    "h AL=" ++ hex2 al ++ "h" ++ desc_field ++
    "  AX=" ++ hex4 (r.ax % 65536) ++ " BX=" ++ hex4 (r.bx % 65536) ++
    " CX=" ++ hex4 (r.cx % 65536) ++ " DX=" ++ hex4 (r.dx % 65536) ++
    " SI=" ++ hex4 (r.si % 65536) ++ " DI=" ++ hex4 (r.di % 65536) ++
    " DS=" ++ hex4 (r.ds % 65536) ++ " ES=" ++ hex4 (r.es % 65536)

/-- `InterruptLogger_Log(int_num)`. -/
def InterruptLogger_Log (int_num : Nat) (regs : Regs) (now : Nat)
    (st : GTState) : GTState :=
  DEBUGTRACE_Write st (intrLine (DEBUGTRACE_GetElapsedMs st now) int_num regs)

/-! ## video_mode_logger.cpp -/

def k_mode_table : List (Nat × String) :=
  [(0x00, "40x25 16-color text (B&W)"),
   (0x01, "40x25 16-color text"),
   (0x02, "80x25 16-color text (B&W)"),
   (0x03, "80x25 16-color text"),
   (0x04, "320x200 4-color CGA"),
   (0x05, "320x200 4-color CGA (B&W)"),
   (0x06, "640x200 2-color CGA"),
   (0x07, "80x25 monochrome text (MDA/Hercules)"),
   (0x0D, "320x200 16-color EGA"),
   (0x0E, "640x200 16-color EGA"),
   (0x0F, "640x350 monochrome EGA"),
   (0x10, "640x350 16-color EGA"),
   (0x11, "640x480 2-color VGA"),
   (0x12, "640x480 16-color VGA"),
   (0x13, "320x200 256-color VGA"),
   (0x100, "640x400 256-color VESA"),
   (0x101, "640x480 256-color VESA"),
   (0x102, "800x600 16-color VESA"),
   (0x103, "800x600 256-color VESA"),
   (0x104, "1024x768 16-color VESA"),
   (0x105, "1024x768 256-color VESA"),
   (0x106, "1280x1024 16-color VESA"),
   (0x107, "1280x1024 256-color VESA"),
   (0x10D, "320x200 32K-color VESA"),
   (0x10E, "320x200 64K-color VESA"),
   (0x10F, "320x200 16M-color VESA"),
   (0x110, "640x480 32K-color VESA"),
   (0x111, "640x480 64K-color VESA"),
   (0x112, "640x480 16M-color VESA"),
   (0x113, "800x600 32K-color VESA"),
   (0x114, "800x600 64K-color VESA"),
   (0x115, "800x600 16M-color VESA"),
   (0x116, "1024x768 32K-color VESA"),
   (0x117, "1024x768 64K-color VESA"),
   (0x118, "1024x768 16M-color VESA")]

/-- `lookup_mode_desc(mode)`: first table entry whose key equals the
mode with bit 15 masked off; otherwise the fixed fallback. -/
def lookup_mode_desc (mode : Nat) : String :=
  match k_mode_table.find? (fun e => e.1 = mode % 65536 % 0x8000) with
  | some e => e.2
  | none => "unknown mode"

def videoLine (t : Nat) (old_mode new_mode : Nat) : String :=
  tstamp t ++ " VIDEO MODE SWITCH: " ++ hex2 (old_mode % 65536) ++ "h (" ++
    lookup_mode_desc old_mode ++ ") -> " ++ hex2 (new_mode % 65536) ++ "h (" ++
    lookup_mode_desc new_mode ++ ")"

/-- `VideoModeLogger_Log(old_mode, new_mode)`. -/
def VideoModeLogger_Log (old_mode new_mode : Nat) (now : Nat)
    (st : GTState) : GTState :=
  DEBUGTRACE_Write st (videoLine (DEBUGTRACE_GetElapsedMs st now) old_mode new_mode)

/-! ## game_trace.cpp — integration-point wrappers -/

def DEBUGTRACE_LogInstruction (cs_val ip_val : Nat) (regs : Regs)
    (mem : Nat → Nat) (now : Nat) (cfg : TraceConfig) (st : GTState) : GTState :=
  if !cfg.trace_instructions then st
  else InstructionLogger_Log cs_val ip_val regs mem now cfg st

def DEBUGTRACE_LogInterrupt (int_num : Nat) (regs : Regs) (now : Nat)
    (cfg : TraceConfig) (st : GTState) : GTState :=
  if !cfg.trace_interrupts then st
  else if DEBUGTRACE_IsInterruptExcluded cfg int_num then st
  else InterruptLogger_Log int_num regs now st

def DEBUGTRACE_LogFileCreate (filename : Option String) (cx_attrib now : Nat)
    (cfg : TraceConfig) (st : GTState) : GTState :=
  if !cfg.trace_file_io then st
  else FileIOLogger_LogCreate filename cx_attrib now st

def DEBUGTRACE_LogFileOpen (filename : Option String) (al_mode now : Nat)
    (cfg : TraceConfig) (st : GTState) : GTState :=
  if !cfg.trace_file_io then st
  else FileIOLogger_LogOpen filename al_mode now st

/-- `DEBUGTRACE_RecordHandleOpen(handle, filename)`: forwards to the
registry unconditionally — unlike the other file-I/O wrappers it tests
no configuration flag (the `cfg` parameter mirrors the ambient
`g_config` the C function could read but does not). -/
def DEBUGTRACE_RecordHandleOpen (handle : Nat) (filename : Option String)
    (_cfg : TraceConfig) (st : GTState) : GTState :=
  FileIOLogger_RecordHandle handle filename st

def DEBUGTRACE_LogFileClose (handle now : Nat) (cfg : TraceConfig)
    (st : GTState) : GTState :=
  if !cfg.trace_file_io then st
  else FileIOLogger_LogClose handle now st

def DEBUGTRACE_LogFileReadPre (handle requested_bytes ds_seg dx_off now : Nat)
    (cfg : TraceConfig) (st : GTState) : GTState :=
  if !cfg.trace_file_io then st
  else FileIOLogger_LogReadPre handle requested_bytes ds_seg dx_off now st

def DEBUGTRACE_LogFileReadPost (handle actual_bytes buf_phys : Nat)
    (mem : Nat → Nat) (now : Nat) (cfg : TraceConfig) (st : GTState) : GTState :=
  if !cfg.trace_file_io then st
  else FileIOLogger_LogReadPost handle actual_bytes buf_phys mem now cfg st

def DEBUGTRACE_LogExec (filename cmdline : Option String)
    (interactive interactive_only : Bool) (ss_val now : Nat)
    (cfg : TraceConfig) (st : GTState) : GTState :=
  ExecLogger_Log filename cmdline interactive interactive_only ss_val now cfg st

def DEBUGTRACE_LogVideoModeSwitch (old_mode new_mode now : Nat)
    (cfg : TraceConfig) (st : GTState) : GTState :=
  if !cfg.trace_video_modes then st
  else VideoModeLogger_Log old_mode new_mode now st

/-- The option names registered for the `[debugtrace]` section by
`DEBUGTRACE_AddConfigSection` (each `AddBool`/`AddString`/`AddInt`
call, in source order). -/
def debugtraceSectionOptionNames : List String :=
  ["enabled", "logfile", "trace_instructions", "trace_interrupts",
   "trace_file_io", "trace_video_modes", "auto_trace_on_exec",
   "exclude_interrupts", "file_read_hex_dump_bytes",
   "instruction_sample_rate", "max_log_size_mb"]

/-! ## game_trace.cpp — Init / Shutdown -/

/-- `DEBUGTRACE_Init`: no-op when the section is absent or `enabled` is
false; otherwise open the sink (`fopen_ok` models whether `fopen`
succeeded; on failure the sink falls back to stdout), start tracing
immediately when `auto_trace_on_exec` is off, mark the system ready and
initialise the file-I/O logger. -/
def DEBUGTRACE_Init (cfg : TraceConfig) (fopen_ok : Bool) (now : Nat)
    (st : GTState) : GTState :=
  if !cfg.enabled then st
  else
    let st1 :=
      if cfg.logfile = "stdout" ∨ cfg.logfile = "" then
        { st with g_log_open := true, g_log_is_stdout := true, g_own_file := false }
      else if fopen_ok then
        { st with g_log_open := true, g_log_is_stdout := false, g_own_file := true }
      else
        { st with g_log_open := true, g_log_is_stdout := true, g_own_file := false }
    let st2 :=
      if !cfg.auto_trace_on_exec then
        DEBUGTRACE_Write
          { (set_epoch_now now st1) with g_trace_enabled := true } startedMarker
      else st1
    FileIOLogger_Init { st2 with g_debugtrace_system_ready := true }

/-- `DEBUGTRACE_Shutdown`. -/
def DEBUGTRACE_Shutdown (cfg : TraceConfig) (st : GTState) : GTState :=
  if !cfg.enabled then st
  else
    let st1 :=
      if st.g_log_open ∧ ¬st.g_log_is_stdout then
        { (DEBUGTRACE_Write st endedMarker) with g_log_open := false,
                                                 g_own_file := false }
      else st
    FileIOLogger_Shutdown
      { st1 with g_trace_enabled := false, g_debugtrace_system_ready := false,
                 s_exec_depth := 0 }

/-! ## Event traces -/

/-- One call into the tracing subsystem from an integration point,
carrying whatever the external collaborators supply for that call
(clock reading, registers, memory reader, shell state, …). -/
inductive TraceEvent where
  | evInit (fopen_ok : Bool) (now : Nat)
  | evShutdown
  | evInstruction (cs_val ip_val : Nat) (regs : Regs) (mem : Nat → Nat) (now : Nat)
  | evInterrupt (int_num : Nat) (regs : Regs) (now : Nat)
  | evFileCreate (filename : Option String) (cx_attrib now : Nat)
  | evFileOpen (filename : Option String) (al_mode now : Nat)
  | evRecordHandleOpen (handle : Nat) (filename : Option String)
  | evFileClose (handle now : Nat)
  | evFileReadPre (handle requested_bytes ds_seg dx_off now : Nat)
  | evFileReadPost (handle actual_bytes buf_phys : Nat) (mem : Nat → Nat) (now : Nat)
  | evExec (filename cmdline : Option String)
      (interactive interactive_only : Bool) (ss_val now : Nat)
  | evVideoModeSwitch (old_mode new_mode now : Nat)
  | evExecDepthPush
  | evProgramTerminate (return_code now : Nat)

def traceStep (cfg : TraceConfig) (st : GTState) : TraceEvent → GTState
  | .evInit fopen_ok now => DEBUGTRACE_Init cfg fopen_ok now st
  | .evShutdown => DEBUGTRACE_Shutdown cfg st
  | .evInstruction cs ip regs mem now =>
      DEBUGTRACE_LogInstruction cs ip regs mem now cfg st
  | .evInterrupt n regs now => DEBUGTRACE_LogInterrupt n regs now cfg st
  | .evFileCreate fn attr now => DEBUGTRACE_LogFileCreate fn attr now cfg st
  | .evFileOpen fn mode now => DEBUGTRACE_LogFileOpen fn mode now cfg st
  | .evRecordHandleOpen h fn => DEBUGTRACE_RecordHandleOpen h fn cfg st
  | .evFileClose h now => DEBUGTRACE_LogFileClose h now cfg st
  | .evFileReadPre h req ds dx now =>
      DEBUGTRACE_LogFileReadPre h req ds dx now cfg st
  | .evFileReadPost h act buf mem now =>
      DEBUGTRACE_LogFileReadPost h act buf mem now cfg st
  | .evExec fn cl ia io ssv now => DEBUGTRACE_LogExec fn cl ia io ssv now cfg st
  | .evVideoModeSwitch om nm now => DEBUGTRACE_LogVideoModeSwitch om nm now cfg st
  | .evExecDepthPush => DEBUGTRACE_OnExecDepthPush st
  | .evProgramTerminate rc now => DEBUGTRACE_OnProgramTerminate rc now st

def runTrace (cfg : TraceConfig) (st : GTState) (evs : List TraceEvent) : GTState :=
  evs.foldl (traceStep cfg) st

/-! ## Concrete fixtures used by witnesses -/

/-- A configuration with file-I/O tracing switched off (used to witness
ungated behaviour). -/
def cfgOff : TraceConfig :=
  { enabled := true, logfile := "game_trace.log", trace_instructions := true,
    trace_interrupts := true, trace_file_io := false, trace_video_modes := true,
    auto_trace_on_exec := true, exclude_interrupts := "08,1C",
    file_read_hex_dump := 64, instruction_sample_rate := 1, max_log_size_mb := 0 }

/-- The post-`DEBUGTRACE_Init` state with tracing not yet activated. -/
def stReady : GTState :=
  { g_trace_enabled := false, g_debugtrace_system_ready := true,
    g_log_open := true, g_log_is_stdout := false, g_own_file := true,
    g_epoch := 0, g_epoch_set := false, s_exec_depth := 0,
    s_handle_map := fun _ => none, pending_active := false, pending_handle := 0,
    pending_requested := 0, pending_ds := 0, pending_dx := 0,
    s_sample_counter := 0, log := [] }

/-- An activated state (epoch set, depth 1, empty handle map). -/
def stActive : GTState :=
  { g_trace_enabled := true, g_debugtrace_system_ready := true,
    g_log_open := true, g_log_is_stdout := false, g_own_file := true,
    g_epoch := 100, g_epoch_set := true, s_exec_depth := 1,
    s_handle_map := fun _ => none, pending_active := false, pending_handle := 0,
    pending_requested := 0, pending_ds := 0, pending_dx := 0,
    s_sample_counter := 0, log := [] }

/-! ## C10 — handle registration is not gated -/

/-- C10: `DEBUGTRACE_RecordHandleOpen` is consulted by no enable flag:
for every state (in particular a disabled one) and every configuration
(in particular `trace_file_io = false`), a handle below `DOS_FILES`
with a non-empty filename is inserted/overwritten in the registry,
while an out-of-range handle or a null/empty filename leaves the state
(and so the registry) completely unchanged. -/
theorem C10_record_handle_open_ungated (cfg : TraceConfig) (st : GTState)
    (handle : Nat) (filename : Option String) :
    (∀ f, filename = some f → f ≠ "" → handle < DOS_FILES →
      DEBUGTRACE_RecordHandleOpen handle filename cfg st =
        { st with s_handle_map := fun h => if h = handle then some f
                                           else st.s_handle_map h })
    ∧ (DOS_FILES ≤ handle ∨ filename = none ∨ filename = some "" →
      DEBUGTRACE_RecordHandleOpen handle filename cfg st = st) := by
  constructor
  · intro f hsome hne hlt
    subst hsome
    simp only [DEBUGTRACE_RecordHandleOpen, FileIOLogger_RecordHandle,
      if_neg (Nat.not_le.mpr hlt), ne_eq, hne, not_false_eq_true, if_true]
  · intro h
    rcases h with h | h | h
    · simp only [DEBUGTRACE_RecordHandleOpen, FileIOLogger_RecordHandle, if_pos h]
    · subst h
      simp only [DEBUGTRACE_RecordHandleOpen, FileIOLogger_RecordHandle]
      split <;> rfl
    · subst h
      simp only [DEBUGTRACE_RecordHandleOpen, FileIOLogger_RecordHandle]
      split
      · rfl
      · simp

theorem C10_record_handle_open_ungated_witness :
    DEBUGTRACE_RecordHandleOpen 5 (some "A.DAT") cfgOff stReady =
      { stReady with s_handle_map := fun h => if h = 5 then some "A.DAT"
                                              else stReady.s_handle_map h } :=
  (C10_record_handle_open_ungated cfgOff stReady 5 (some "A.DAT")).1
    "A.DAT" rfl (by decide) (by decide)

/-! ## C8 — unmatched read results are discarded atomically -/

/-- C8: a read-result event arriving while the pending slot is inactive,
or carrying a handle different from the pending one, emits nothing and
leaves the whole tracer state unchanged except that the pending slot is
cleared. -/
theorem C8_unmatched_read_result_discarded (cfg : TraceConfig) (st : GTState)
    (handle actual_bytes buf_phys : Nat) (mem : Nat → Nat) (now : Nat)
    (h : st.pending_active = false ∨ st.pending_handle ≠ handle) :
    FileIOLogger_LogReadPost handle actual_bytes buf_phys mem now cfg st =
      { st with pending_active := false } := by
  unfold FileIOLogger_LogReadPost
  rcases h with h | h
  · simp [h]
  · simp [h]

theorem C8_unmatched_read_result_discarded_witness :
    FileIOLogger_LogReadPost 7 16 0 (fun _ => 0) 5 cfgOff stReady =
      { stReady with pending_active := false } :=
  C8_unmatched_read_result_discarded cfgOff stReady 7 16 0 (fun _ => 0) 5
    (Or.inl rfl)

/-! ## C7 — handle lifecycle -/

/-- C7: after recording handle `h` with non-empty filename `f` (`h` in
the valid range), a close event for `h` emits exactly one line naming
`f`; only after emitting is the mapping removed, so a subsequent lookup
of `h` resolves to the fixed `"<unknown>"` sentinel.  Lookup is a total
function: any unmapped handle resolves to the sentinel rather than
failing. -/
theorem C7_handle_lifecycle (st : GTState) (handle : Nat) (f : String)
    (now : Nat) (hh : handle < DOS_FILES) (hf : f ≠ "") :
    (FileIOLogger_LogClose handle now
        (FileIOLogger_RecordHandle handle (some f) st)).log =
      (FileIOLogger_RecordHandle handle (some f) st).log ++
        [closeLine
          (DEBUGTRACE_GetElapsedMs (FileIOLogger_RecordHandle handle (some f) st) now)
          f handle]
    ∧ (FileIOLogger_LogClose handle now
        (FileIOLogger_RecordHandle handle (some f) st)).s_handle_map handle = none
    ∧ lookup_filename
        (FileIOLogger_LogClose handle now
          (FileIOLogger_RecordHandle handle (some f) st)) handle = "<unknown>"
    ∧ (∀ st' h', st'.s_handle_map h' = none →
        lookup_filename st' h' = "<unknown>") := by
  have hmap : (FileIOLogger_RecordHandle handle (some f) st).s_handle_map handle
      = some f := by
    simp only [FileIOLogger_RecordHandle, if_neg (Nat.not_le.mpr hh), ne_eq, hf,
      not_false_eq_true, if_true]
  refine ⟨?_, ?_, ?_, ?_⟩
  · simp only [FileIOLogger_LogClose, DEBUGTRACE_Write, lookup_filename, hmap]
  · simp [FileIOLogger_LogClose, DEBUGTRACE_Write]
  · simp [lookup_filename, FileIOLogger_LogClose, DEBUGTRACE_Write]
  · intro st' h' hnone
    simp only [lookup_filename, hnone]

theorem C7_handle_lifecycle_witness :
    (FileIOLogger_LogClose 5 42
        (FileIOLogger_RecordHandle 5 (some "A.DAT") stReady)).log =
      (FileIOLogger_RecordHandle 5 (some "A.DAT") stReady).log ++
        [closeLine
          (DEBUGTRACE_GetElapsedMs (FileIOLogger_RecordHandle 5 (some "A.DAT") stReady) 42)
          "A.DAT" 5]
    ∧ lookup_filename
        (FileIOLogger_LogClose 5 42
          (FileIOLogger_RecordHandle 5 (some "A.DAT") stReady)) 5 = "<unknown>" := by
  have h := C7_handle_lifecycle stReady 5 "A.DAT" 42 (by decide) (by decide)
  exact ⟨h.1, h.2.2.1⟩

/-! ## C2 — program-termination handling -/

/-- C2: a termination event while disabled changes nothing and emits
nothing.  While enabled it decrements the depth and emits exactly one
line carrying the elapsed time, the numeric return code and the
decremented depth; exactly when that decremented depth is ≤ 0 it
additionally emits the deactivation marker, clears the enabled flag and
clamps the depth to 0.  All other fields — handle registry, pending
read slot, sink bookkeeping — are untouched (the conclusion is a full
state equality in every case). -/
theorem C2_program_terminate (st : GTState) (rc now : Nat) :
    (st.g_trace_enabled = false → DEBUGTRACE_OnProgramTerminate rc now st = st)
    ∧ (st.g_trace_enabled = true → 0 < st.s_exec_depth - 1 →
      DEBUGTRACE_OnProgramTerminate rc now st =
        { st with s_exec_depth := st.s_exec_depth - 1,
                  log := st.log ++
                    [terminatedLine (DEBUGTRACE_GetElapsedMs st now) (rc % 256)
                      (st.s_exec_depth - 1)] })
    ∧ (st.g_trace_enabled = true → st.s_exec_depth - 1 ≤ 0 →
      DEBUGTRACE_OnProgramTerminate rc now st =
        { st with s_exec_depth := 0, g_trace_enabled := false,
                  log := st.log ++
                    [terminatedLine (DEBUGTRACE_GetElapsedMs st now) (rc % 256)
                      (st.s_exec_depth - 1), deactivatedMarker] }) := by
  refine ⟨?_, ?_, ?_⟩
  · intro h
    simp [DEBUGTRACE_OnProgramTerminate, h]
  · intro hen hd
    simp only [DEBUGTRACE_OnProgramTerminate, hen, Bool.not_true,
      Bool.false_eq_true, if_false, DEBUGTRACE_Write, DEBUGTRACE_GetElapsedMs,
      if_neg (by omega : ¬st.s_exec_depth - 1 ≤ 0)]
  · intro hen hd
    simp only [DEBUGTRACE_OnProgramTerminate, hen, Bool.not_true,
      Bool.false_eq_true, if_false, DEBUGTRACE_Write, DEBUGTRACE_GetElapsedMs,
      if_pos hd, List.append_assoc, List.singleton_append]

theorem C2_program_terminate_witness :
    DEBUGTRACE_OnProgramTerminate 3 160 stActive =
      { stActive with s_exec_depth := 0, g_trace_enabled := false,
                      log := stActive.log ++
                        [terminatedLine (DEBUGTRACE_GetElapsedMs stActive 160) 3 0,
                         deactivatedMarker] } := by
  have h := (C2_program_terminate stActive 3 160).2.2 rfl (by decide)
  simpa using h

/-! ## C1 — nesting invariant of the activation state machine -/

/-- A program-load (`DEBUGTRACE_OnExecDepthPush`) or normal-termination
(`DEBUGTRACE_OnProgramTerminate`) event. -/
inductive PTEv where
  | push
  | term (return_code now : Nat)

def ptStep (st : GTState) : PTEv → GTState
  | .push => DEBUGTRACE_OnExecDepthPush st
  | .term rc now => DEBUGTRACE_OnProgramTerminate rc now st

/-- Run a sequence of load/termination events. -/
def runPT (st : GTState) (evs : List PTEv) : GTState := evs.foldl ptStep st

/-- Number of program-load events. -/
def ptLoads : List PTEv → Nat
  | [] => 0
  | .push :: r => ptLoads r + 1
  | .term _ _ :: r => ptLoads r

/-- Number of normal-termination events. -/
def ptTerms : List PTEv → Nat
  | [] => 0
  | .push :: r => ptTerms r
  | .term _ _ :: r => ptTerms r + 1

theorem runPT_disabled (evs : List PTEv) :
    ∀ st : GTState, st.g_trace_enabled = false → runPT st evs = st := by
  induction evs with
  | nil => intro st _; rfl
  | cons e r ih =>
    intro st h
    cases e with
    | push =>
      have hstep : ptStep st .push = st := by
        simp [ptStep, DEBUGTRACE_OnExecDepthPush, h]
      simpa [runPT, List.foldl_cons, hstep] using ih st h
    | term rc now =>
      have hstep : ptStep st (.term rc now) = st := by
        simp [ptStep, DEBUGTRACE_OnProgramTerminate, h]
      simpa [runPT, List.foldl_cons, hstep] using ih st h


theorem runPT_cons (st : GTState) (e : PTEv) (r : List PTEv) :
    runPT st (e :: r) = runPT (ptStep st e) r := rfl

theorem ptShiftPush (r : List PTEv) (k : Nat) :
    (∃ j, 0 < j ∧ j ≤ (PTEv.push :: r).length ∧
        k + ptLoads ((PTEv.push :: r).take j) = ptTerms ((PTEv.push :: r).take j)) ↔
    (∃ j, 0 < j ∧ j ≤ r.length ∧
        (k + 1) + ptLoads (r.take j) = ptTerms (r.take j)) := by
  constructor
  · rintro ⟨j, hj0, hjle, hjeq⟩
    cases j with
    | zero => omega
    | succ j' =>
      simp only [List.take_succ_cons, ptLoads, ptTerms, List.length_cons] at hjle hjeq
      cases j' with
      | zero =>
        simp only [List.take_zero, ptLoads, ptTerms] at hjeq
        omega
      | succ j'' =>
        refine ⟨j'' + 1, ?_, ?_, ?_⟩
        · omega
        · omega
        · omega
  · rintro ⟨j, hj0, hjle, hjeq⟩
    refine ⟨j + 1, ?_, ?_, ?_⟩
    · omega
    · simp only [List.length_cons]; omega
    · simp only [List.take_succ_cons, ptLoads, ptTerms]; omega

theorem ptShiftTerm (r : List PTEv) (rc now k : Nat) (hk2 : 2 ≤ k) :
    (∃ j, 0 < j ∧ j ≤ (PTEv.term rc now :: r).length ∧
        k + ptLoads ((PTEv.term rc now :: r).take j) =
          ptTerms ((PTEv.term rc now :: r).take j)) ↔
    (∃ j, 0 < j ∧ j ≤ r.length ∧
        (k - 1) + ptLoads (r.take j) = ptTerms (r.take j)) := by
  constructor
  · rintro ⟨j, hj0, hjle, hjeq⟩
    cases j with
    | zero => omega
    | succ j' =>
      simp only [List.take_succ_cons, ptLoads, ptTerms, List.length_cons] at hjle hjeq
      cases j' with
      | zero =>
        simp only [List.take_zero, ptLoads, ptTerms] at hjeq
        omega
      | succ j'' =>
        refine ⟨j'' + 1, ?_, ?_, ?_⟩
        · omega
        · omega
        · omega
  · rintro ⟨j, hj0, hjle, hjeq⟩
    refine ⟨j + 1, ?_, ?_, ?_⟩
    · omega
    · simp only [List.length_cons]; omega
    · simp only [List.take_succ_cons, ptLoads, ptTerms]; omega

theorem runPT_core (evs : List PTEv) :
    ∀ (st : GTState) (k : Nat),
      st.g_trace_enabled = true → st.s_exec_depth = (k : Int) →
      (∀ j, j ≤ evs.length → ptTerms (evs.take j) ≤ k + ptLoads (evs.take j)) →
      (((runPT st evs).g_trace_enabled = false ↔
          ∃ j, 0 < j ∧ j ≤ evs.length ∧
            k + ptLoads (evs.take j) = ptTerms (evs.take j))
       ∧ ((runPT st evs).g_trace_enabled = true →
            (runPT st evs).s_exec_depth = (k : Int) + ptLoads evs - ptTerms evs)
       ∧ ((runPT st evs).g_trace_enabled = false →
            (runPT st evs).s_exec_depth = 0)) := by
  induction evs with
  | nil =>
    intro st k hen hd _
    refine ⟨?_, ?_, ?_⟩
    · rw [show runPT st [] = st from rfl, hen]
      simp only [Bool.true_eq_false, false_iff]
      rintro ⟨j, hj0, hjle, _⟩
      simp only [List.length_nil] at hjle
      omega
    · intro _
      simpa [runPT, ptLoads, ptTerms] using hd
    · intro hfalse
      rw [show runPT st [] = st from rfl, hen] at hfalse
      exact absurd hfalse (by simp)
  | cons e r ih =>
    intro st k hen hd hpre
    cases e with
    | push =>
      have hstep : ptStep st .push =
          { st with s_exec_depth := st.s_exec_depth + 1 } := by
        simp [ptStep, DEBUGTRACE_OnExecDepthPush, hen]
      have hd' : ({ st with s_exec_depth := st.s_exec_depth + 1 } :
          GTState).s_exec_depth = ((k + 1 : Nat) : Int) := by
        show st.s_exec_depth + 1 = ((k + 1 : Nat) : Int)
        rw [hd]
        push_cast
        ring
      have hpre' : ∀ j, j ≤ r.length →
          ptTerms (r.take j) ≤ (k + 1) + ptLoads (r.take j) := by
        intro j hj
        have h1 := hpre (j + 1) (by simp only [List.length_cons]; omega)
        simp only [List.take_succ_cons, ptLoads, ptTerms] at h1
        omega
      have hih := ih { st with s_exec_depth := st.s_exec_depth + 1 } (k + 1)
        hen hd' hpre'
      rw [runPT_cons, hstep]
      refine ⟨?_, ?_, ?_⟩
      · rw [hih.1, ← ptShiftPush r k]
      · intro htrue
        have h2 := hih.2.1 htrue
        rw [h2]
        simp only [ptLoads, ptTerms]
        push_cast
        ring
      · exact hih.2.2
    | term rc now =>
      have hk1 : 1 ≤ k := by
        have h1 := hpre 1 (by simp only [List.length_cons]; omega)
        simp only [List.take_succ_cons, List.take_zero, ptLoads, ptTerms] at h1
        omega
      by_cases hone : k = 1
      · -- the decrement reaches zero: deactivation
        subst hone
        have hstep : (ptStep st (.term rc now)).g_trace_enabled = false ∧
            (ptStep st (.term rc now)).s_exec_depth = 0 := by
          simp [ptStep, DEBUGTRACE_OnProgramTerminate, hen, hd, DEBUGTRACE_Write]
        have hrun : runPT st (.term rc now :: r) = ptStep st (.term rc now) := by
          rw [runPT_cons, runPT_disabled r _ hstep.1]
        refine ⟨?_, ?_, ?_⟩
        · rw [hrun, hstep.1]
          simp only [true_iff]
          refine ⟨1, by omega, by simp only [List.length_cons]; omega, ?_⟩
          simp only [List.take_succ_cons, List.take_zero, ptLoads, ptTerms]
        · intro htrue
          rw [hrun, hstep.1] at htrue
          exact absurd htrue (by simp)
        · intro _
          rw [hrun]
          exact hstep.2
      · -- depth stays positive: trace continues with depth k - 1
        have hk2 : 2 ≤ k := by omega
        have hguard : ¬ st.s_exec_depth - 1 ≤ 0 := by
          rw [hd]
          omega
        have hen' : (ptStep st (.term rc now)).g_trace_enabled = true := by
          simp [ptStep, DEBUGTRACE_OnProgramTerminate, hen, hguard,
            DEBUGTRACE_Write]
        have hd' : (ptStep st (.term rc now)).s_exec_depth = ((k - 1 : Nat) : Int) := by
          simp only [ptStep, DEBUGTRACE_OnProgramTerminate, hen, Bool.not_true,
            Bool.false_eq_true, if_false, if_neg hguard, DEBUGTRACE_Write]
          rw [hd]
          omega
        have hpre' : ∀ j, j ≤ r.length →
            ptTerms (r.take j) ≤ (k - 1) + ptLoads (r.take j) := by
          intro j hj
          have h1 := hpre (j + 1) (by simp only [List.length_cons]; omega)
          simp only [List.take_succ_cons, ptLoads, ptTerms] at h1
          omega
        have hih := ih (ptStep st (.term rc now)) (k - 1) hen' hd' hpre'
        rw [runPT_cons]
        refine ⟨?_, ?_, ?_⟩
        · rw [hih.1, ← ptShiftTerm r rc now k hk2]
        · intro htrue
          have h2 := hih.2.1 htrue
          rw [h2]
          simp only [ptLoads, ptTerms]
          push_cast [hk1]
          ring
        · exact hih.2.2

/-- C1: starting from a just-activated state (`enabled = true`,
`exec_depth = 0`), for any sequence of program-load
(`DEBUGTRACE_OnExecDepthPush`) and normal-termination
(`DEBUGTRACE_OnProgramTerminate`) events in which loads ≥ terminations
at every prefix: while tracing is still active the depth equals
loads − terminations; whenever tracing is disabled the depth is 0; the
depth is never negative; and deactivation has occurred exactly when
some non-empty prefix reached loads = terminations (the first time the
depth returned to zero). -/
theorem C1_nesting_invariant (evs : List PTEv) (st0 : GTState)
    (hen : st0.g_trace_enabled = true) (hd : st0.s_exec_depth = 0)
    (hpre : ∀ j, j ≤ evs.length → ptTerms (evs.take j) ≤ ptLoads (evs.take j)) :
    ((runPT st0 evs).g_trace_enabled = true →
        (runPT st0 evs).s_exec_depth = (ptLoads evs : Int) - ptTerms evs)
    ∧ ((runPT st0 evs).g_trace_enabled = false →
        (runPT st0 evs).s_exec_depth = 0)
    ∧ 0 ≤ (runPT st0 evs).s_exec_depth
    ∧ ((runPT st0 evs).g_trace_enabled = false ↔
        ∃ j, 0 < j ∧ j ≤ evs.length ∧
          ptLoads (evs.take j) = ptTerms (evs.take j)) := by
  have hcore := runPT_core evs st0 0 hen (by simpa using hd)
    (by intro j hj; simpa using hpre j hj)
  refine ⟨?_, hcore.2.2, ?_, ?_⟩
  · intro htrue
    have h2 := hcore.2.1 htrue
    rw [h2]
    push_cast
    ring
  · rcases Bool.eq_false_or_eq_true (runPT st0 evs).g_trace_enabled with ht | hf
    · have h2 := hcore.2.1 ht
      rw [h2]
      have h3 := hpre evs.length (by omega)
      rw [List.take_length] at h3
      push_cast
      omega
    · rw [hcore.2.2 hf]
  · rw [hcore.1]
    constructor
    · rintro ⟨j, hj0, hjle, hjeq⟩
      exact ⟨j, hj0, hjle, by omega⟩
    · rintro ⟨j, hj0, hjle, hjeq⟩
      exact ⟨j, hj0, hjle, by omega⟩

theorem C1_nesting_invariant_witness :
    (runPT { stActive with s_exec_depth := 0 }
        [PTEv.push, PTEv.push, PTEv.term 0 150, PTEv.term 0 200]).g_trace_enabled
      = false
    ∧ (runPT { stActive with s_exec_depth := 0 }
        [PTEv.push, PTEv.push, PTEv.term 0 150, PTEv.term 0 200]).s_exec_depth = 0 := by
  have h := C1_nesting_invariant
    [PTEv.push, PTEv.push, PTEv.term 0 150, PTEv.term 0 200]
    { stActive with s_exec_depth := 0 } rfl rfl (by decide)
  have hdis := h.2.2.2.mpr ⟨4, by omega, by decide, by decide⟩
  exact ⟨hdis, h.2.1 hdis⟩

/-! ## C5 — interrupt exclusion -/

/-- Specification-side tokenizer: the comma-separated tokens of a
string, in the usual sense (every maximal comma-free run, including
empty ones). -/
def specSplit : List Char → List (List Char)
  | [] => [[]]
  | c :: r =>
    if c = ',' then [] :: specSplit r
    else
      match specSplit r with
      | t :: ts => (c :: t) :: ts
      | [] => [[c]]

theorem specSplit_ne_nil (s : List Char) : specSplit s ≠ [] := by
  cases s with
  | nil => simp [specSplit]
  | cons c r =>
    simp only [specSplit]
    split
    · simp
    · split <;> simp

/-- The C tokenizing loop agrees with the specification tokenizer on any
predicate that rejects the empty token (the only difference between the
two is a dropped trailing empty token). -/
theorem cppTokens_any_eq (P : List Char → Bool) (hP : P [] = false) :
    ∀ (s cur : List Char),
      (cppTokens cur s).any P =
        (P (cur.reverse ++ (specSplit s).headD []) ||
          ((specSplit s).tail).any P) := by
  intro s
  induction s with
  | nil =>
    intro cur
    simp [cppTokens, specSplit]
  | cons c r ih =>
    intro cur
    by_cases hc : c = ','
    · subst hc
      by_cases hr : r = []
      · subst hr
        simp [cppTokens, specSplit, hP]
      · have e1 : cppTokens cur (',' :: r) = cur.reverse :: cppTokens [] r := by
          simp [cppTokens, hr]
        have e2 : specSplit (',' :: r) = [] :: specSplit r := by
          simp [specSplit]
        rw [e1, e2]
        simp only [List.any_cons, List.headD_cons, List.tail_cons, List.nil_append]
        rw [ih []]
        have hne := specSplit_ne_nil r
        rcases hs : specSplit r with _ | ⟨t, ts⟩
        · exact absurd hs hne
        · simp [List.any_cons]
    · have e1 : cppTokens cur (c :: r) = cppTokens (c :: cur) r := by
        simp [cppTokens, hc]
      rw [e1, ih (c :: cur)]
      have hne := specSplit_ne_nil r
      rcases hs : specSplit r with _ | ⟨t, ts⟩
      · exact absurd hs hne
      · have e2 : specSplit (c :: r) = (c :: t) :: ts := by
          simp [specSplit, hc, hs]
        rw [e2]
        simp [List.reverse_cons, List.append_assoc]

theorem cToUpper_hexDigitCh (m : Nat) (hm : m < 16) :
    cToUpper (hexDigitCh m) = hexDigitCh m := by
  interval_cases m <;> decide

theorem tokMatches_iff (n : Nat) (tok : List Char) :
    tokMatches (hexDigitCh (n % 256 / 16)) (hexDigitCh (n % 16)) tok = true ↔
      tok.map cToUpper = hexByteChars n := by
  have h0 := cToUpper_hexDigitCh (n % 256 / 16) (by omega)
  have h1 := cToUpper_hexDigitCh (n % 16) (by omega)
  match tok with
  | [] => simp [tokMatches, hexByteChars]
  | [a] => simp [tokMatches, hexByteChars]
  | [a, b] =>
    simp only [tokMatches, List.map, hexByteChars, decide_eq_true_eq,
      List.cons.injEq, and_true]
    constructor
    · rintro ⟨ha, hb⟩
      rw [h0] at ha
      rw [h1] at hb
      exact ⟨ha, hb⟩
    · rintro ⟨ha, hb⟩
      rw [h0, ← ha]
      rw [h1, ← hb]
      exact ⟨rfl, rfl⟩
  | a :: b :: c :: r => simp [tokMatches, hexByteChars]

/-- C5: `DEBUGTRACE_IsInterruptExcluded(n)` returns true iff the
two-digit uppercase hexadecimal form of `n` equals, case-insensitively
(modelled by `toupper` on both sides), some comma-separated token of
the configured `exclude_interrupts` string; the empty string excludes
nothing; and for every excluded interrupt number
`DEBUGTRACE_LogInterrupt` leaves the state (and so the log) unchanged,
regardless of the register contents (AH/AL sub-function). -/
theorem C5_interrupt_exclusion (cfg : TraceConfig) (n : Nat) (_hn : n < 256) :
    (DEBUGTRACE_IsInterruptExcluded cfg n = true ↔
      ∃ tok ∈ specSplit cfg.exclude_interrupts.data,
        tok.map cToUpper = hexByteChars n)
    ∧ (cfg.exclude_interrupts = "" →
      DEBUGTRACE_IsInterruptExcluded cfg n = false)
    ∧ (DEBUGTRACE_IsInterruptExcluded cfg n = true →
      ∀ (regs : Regs) (now : Nat) (st : GTState),
        DEBUGTRACE_LogInterrupt n regs now cfg st = st) := by
  refine ⟨?_, ?_, ?_⟩
  · rcases hdata : cfg.exclude_interrupts.data with _ | ⟨c, cs⟩
    · rw [show DEBUGTRACE_IsInterruptExcluded cfg n = false by
        simp [DEBUGTRACE_IsInterruptExcluded, hdata]]
      simp only [Bool.false_eq_true, false_iff]
      rintro ⟨tok, htok, hmap⟩
      simp only [specSplit, List.mem_singleton] at htok
      subst htok
      simp [hexByteChars] at hmap
    · rw [show DEBUGTRACE_IsInterruptExcluded cfg n =
          (cppTokens [] (c :: cs)).any
            (tokMatches (hexDigitCh (n % 256 / 16)) (hexDigitCh (n % 16))) by
        simp [DEBUGTRACE_IsInterruptExcluded, hdata, hexByteChars]]
      rw [cppTokens_any_eq _ rfl]
      have hne := specSplit_ne_nil (c :: cs)
      rcases hs : specSplit (c :: cs) with _ | ⟨t, ts⟩
      · exact absurd hs hne
      · simp only [List.headD_cons, List.tail_cons, List.reverse_nil,
          List.nil_append]
        rw [← List.any_cons, List.any_eq_true]
        constructor
        · rintro ⟨tok, htok, hmat⟩
          exact ⟨tok, htok, (tokMatches_iff n tok).mp hmat⟩
        · rintro ⟨tok, htok, hmat⟩
          exact ⟨tok, htok, (tokMatches_iff n tok).mpr hmat⟩
  · intro hstr
    have hdata : cfg.exclude_interrupts.data = [] := by
      rw [hstr]
    simp [DEBUGTRACE_IsInterruptExcluded, hdata]
  · intro hexc regs now st
    simp only [DEBUGTRACE_LogInterrupt, hexc, if_true]
    split <;> rfl

def regsZero : Regs :=
  { ax := 0, bx := 0, cx := 0, dx := 0, si := 0, di := 0, bp := 0, sp := 0,
    ds := 0, es := 0, ss := 0, flags := 0 }

theorem C5_interrupt_exclusion_witness :
    DEBUGTRACE_LogInterrupt 0x1C regsZero 5 cfgOff stActive = stActive :=
  (C5_interrupt_exclusion cfgOff 0x1C (by decide)).2.2 (by decide) regsZero 5 stActive

/-! ## C4 — instruction sampling -/

/-- One instruction event's collaborator-supplied inputs. -/
structure InstrIn where
  cs_val : Nat
  ip_val : Nat
  regs : Regs
  mem : Nat → Nat
  now : Nat

/-- Run a sequence of instruction events through
`InstructionLogger_Log`. -/
def runInstr (cfg : TraceConfig) (st : GTState) (ins : List InstrIn) : GTState :=
  ins.foldl (fun s i => InstructionLogger_Log i.cs_val i.ip_val i.regs i.mem i.now cfg s) st

theorem runInstr_all (cfg : TraceConfig) (hN : cfg.instruction_sample_rate ≤ 1) :
    ∀ (ins : List InstrIn) (st : GTState),
      (runInstr cfg st ins).log.length = st.log.length + ins.length := by
  intro ins
  induction ins with
  | nil => intro st; simp [runInstr]
  | cons i r ih =>
    intro st
    have hstep : InstructionLogger_Log i.cs_val i.ip_val i.regs i.mem i.now cfg st =
        DEBUGTRACE_Write st
          (instrLine (DEBUGTRACE_GetElapsedMs st i.now) i.cs_val i.ip_val
            (opcodeBytes i.cs_val i.ip_val i.mem) i.regs) := by
      simp only [InstructionLogger_Log, if_neg (by omega : ¬1 < cfg.instruction_sample_rate)]
    have hr := ih (DEBUGTRACE_Write st
      (instrLine (DEBUGTRACE_GetElapsedMs st i.now) i.cs_val i.ip_val
        (opcodeBytes i.cs_val i.ip_val i.mem) i.regs))
    rw [show runInstr cfg st (i :: r) =
        runInstr cfg (InstructionLogger_Log i.cs_val i.ip_val i.regs i.mem i.now cfg st) r
      from rfl, hstep, hr]
    simp [DEBUGTRACE_Write, List.length_cons]
    omega

theorem write_log_length (st : GTState) (l : String) :
    (DEBUGTRACE_Write st l).log.length = st.log.length + 1 := by
  simp [DEBUGTRACE_Write]

theorem runInstr_sampled (cfg : TraceConfig) (hN : 1 < cfg.instruction_sample_rate) :
    ∀ (ins : List InstrIn) (st : GTState) (c : Nat),
      st.s_sample_counter = (c : Int) → c < cfg.instruction_sample_rate.toNat →
      (runInstr cfg st ins).log.length =
          st.log.length + (c + ins.length) / cfg.instruction_sample_rate.toNat
      ∧ (runInstr cfg st ins).s_sample_counter =
          (((c + ins.length) % cfg.instruction_sample_rate.toNat : Nat) : Int) := by
  intro ins
  induction ins with
  | nil =>
    intro st c hc hlt
    constructor
    · simp [runInstr, Nat.div_eq_of_lt hlt]
    · simpa [runInstr, Nat.mod_eq_of_lt hlt] using hc
  | cons i r ih =>
    intro st c hc hlt
    set M := cfg.instruction_sample_rate.toNat with hM
    have hM2 : 2 ≤ M := by
      rw [hM]
      omega
    have hMcast : (cfg.instruction_sample_rate : Int) = (M : Int) := by
      rw [hM]
      omega
    have hrun : runInstr cfg st (i :: r) =
        runInstr cfg (InstructionLogger_Log i.cs_val i.ip_val i.regs i.mem i.now cfg st) r
      := rfl
    by_cases hfull : c + 1 = M
    · -- the counter reaches the rate: this event is logged, counter resets
      have hguard : ¬ st.s_sample_counter + 1 < cfg.instruction_sample_rate := by
        rw [hc, hMcast]
        omega
      rw [hrun]
      rw [show InstructionLogger_Log i.cs_val i.ip_val i.regs i.mem i.now cfg st =
          DEBUGTRACE_Write { st with s_sample_counter := 0 }
            (instrLine
              (DEBUGTRACE_GetElapsedMs { st with s_sample_counter := 0 } i.now)
              i.cs_val i.ip_val (opcodeBytes i.cs_val i.ip_val i.mem) i.regs) by
        simp only [InstructionLogger_Log, if_pos hN]
        rw [if_neg hguard]]
      generalize (instrLine
          (DEBUGTRACE_GetElapsedMs { st with s_sample_counter := 0 } i.now)
          i.cs_val i.ip_val (opcodeBytes i.cs_val i.ip_val i.mem) i.regs) = l
      have hih := ih (DEBUGTRACE_Write { st with s_sample_counter := 0 } l) 0
        (by simp [DEBUGTRACE_Write]) (by omega)
      constructor
      · rw [hih.1, write_log_length]
        simp only [List.length_cons, Nat.zero_add]
        rw [show c + (r.length + 1) = r.length + M by omega,
          Nat.add_div_right _ (by omega : 0 < M)]
        omega
      · rw [hih.2]
        simp only [Nat.zero_add, List.length_cons]
        rw [show c + (r.length + 1) = r.length + M by omega, Nat.add_mod_right]
    · -- counter not yet at the rate: no line, counter advances
      have hguard : st.s_sample_counter + 1 < cfg.instruction_sample_rate := by
        rw [hc, hMcast]
        omega
      have hstep : InstructionLogger_Log i.cs_val i.ip_val i.regs i.mem i.now cfg st =
          { st with s_sample_counter := st.s_sample_counter + 1 } := by
        simp only [InstructionLogger_Log, if_pos hN]
        rw [if_pos hguard]
      have hcount : ({ st with s_sample_counter := st.s_sample_counter + 1 } :
          GTState).s_sample_counter = ((c + 1 : Nat) : Int) := by
        show st.s_sample_counter + 1 = ((c + 1 : Nat) : Int)
        rw [hc]
        push_cast
        ring
      have hih := ih { st with s_sample_counter := st.s_sample_counter + 1 } (c + 1)
        hcount (by omega)
      rw [hrun, hstep]
      constructor
      · rw [hih.1]
        simp only [List.length_cons]
        rw [show ({ st with s_sample_counter := st.s_sample_counter + 1 } :
            GTState).log = st.log from rfl]
        rw [show c + (r.length + 1) = c + 1 + r.length by omega]
      · rw [hih.2]
        simp only [List.length_cons]
        rw [show c + (r.length + 1) = c + 1 + r.length by omega]

/-- C4 (amended): the sampler is a pure deterministic modulo counter,
but its phase differs from the claim: with the counter starting at 0
and `instruction_sample_rate = N > 1`, the events logged are the Nth,
2Nth, 3Nth, … — the first N−1 events (in particular the 1st) are
skipped.  Formally, after any k ≤ len events the log has grown by
exactly ⌊k / N⌋ lines; `N ≤ 1` logs every event. -/
theorem C4_sampling_amended (cfg : TraceConfig) (st : GTState) (ins : List InstrIn)
    (h0 : st.s_sample_counter = 0) :
    (cfg.instruction_sample_rate ≤ 1 →
      (runInstr cfg st ins).log.length = st.log.length + ins.length)
    ∧ (1 < cfg.instruction_sample_rate →
      ∀ k, k ≤ ins.length →
        (runInstr cfg st (ins.take k)).log.length =
          st.log.length + k / cfg.instruction_sample_rate.toNat) := by
  constructor
  · intro hN
    exact runInstr_all cfg hN ins st
  · intro hN k hk
    have h := runInstr_sampled cfg hN (ins.take k) st 0 (by simpa using h0)
      (by omega)
    rw [h.1]
    congr 2
    simp only [List.length_take]
    omega

/-- C4 counterexample: the claim says the 1st instruction event is
logged (`1st, (N+1)-th, …`); with `instruction_sample_rate = 3` the
first event produces no line at all. -/
theorem C4_sampling_counterexample :
    (InstructionLogger_Log 0 0 regsZero (fun _ => 0) 5
        { cfgOff with instruction_sample_rate := 3 } stActive).log = [] := by
  decide

/-- A concrete instruction-event input for witnesses. -/
def instrIn0 : InstrIn :=
  { cs_val := 0, ip_val := 0, regs := regsZero, now := 5, mem := fun _ => 0 }

theorem C4_sampling_amended_witness :
    (runInstr { cfgOff with instruction_sample_rate := 3 } stActive
        (List.replicate 7 instrIn0)).log.length = 2 := by
  have h := (C4_sampling_amended { cfgOff with instruction_sample_rate := 3 }
    stActive (List.replicate 7 instrIn0) rfl).2 (by decide) 7 (by decide)
  rw [show (List.replicate 7 instrIn0).take 7 = List.replicate 7 instrIn0
    from rfl] at h
  simpa [stActive] using h

/-! ## C6 — read-result hex dump length -/

theorem mk_data_str (s : String) : String.mk s.data = s := by
  cases s
  rfl

theorem mk_append_str (a b : List Char) :
    String.mk (a ++ b) = String.mk a ++ String.mk b := rfl

theorem flatten_dropLast_eq : ∀ data : List Nat,
    String.mk (((data.map (fun b => (hex2 (b % 256)).data ++ [' '])).flatten).dropLast)
      = bytesField data
  | [] => by simp [bytesField]
  | [b] => by
    simp only [List.map_cons, List.map_nil, List.flatten_cons, List.flatten_nil,
      List.append_nil, List.dropLast_concat]
    rw [mk_data_str]
    rfl
  | b :: b' :: r => by
    have hne : ((List.map (fun x => (hex2 (x % 256)).data ++ [' ']) (b' :: r)).flatten)
        ≠ [] := by
      simp
    show String.mk ((((hex2 (b % 256)).data ++ [' ']) ++
        (List.map (fun x => (hex2 (x % 256)).data ++ [' ']) (b' :: r)).flatten).dropLast)
      = bytesField (b :: b' :: r)
    rw [List.dropLast_append_of_ne_nil _ hne]
    rw [mk_append_str, mk_append_str, mk_data_str]
    rw [flatten_dropLast_eq (b' :: r)]
    rfl

/-- When the output buffer leaves room for every byte, the C `hex_dump`
produces exactly the space-separated two-digit rendering of the data. -/
theorem hex_dump_full (data : List Nat) (out_size : Nat)
    (h : data.length ≤ (out_size - 1) / 3) :
    hex_dump data out_size = bytesField data := by
  cases data with
  | nil => simp [hex_dump, bytesField]
  | cons b r =>
    show String.mk (if min (b :: r).length ((out_size - 1) / 3) = 0 then []
      else ((((b :: r).take (min (b :: r).length ((out_size - 1) / 3))).map
        (fun x => (hex2 (x % 256)).data ++ [' '])).flatten).dropLast)
      = bytesField (b :: r)
    rw [min_eq_left h, List.take_length, if_neg (by simp)]
    exact flatten_dropLast_eq (b :: r)

theorem elapsed_lt_pow20 (st : GTState) (now : Nat) :
    DEBUGTRACE_GetElapsedMs st now < 10 ^ 20 := by
  unfold DEBUGTRACE_GetElapsedMs
  split
  · have h1 : (now - st.g_epoch) % 2 ^ 64 < 2 ^ 64 :=
      Nat.mod_lt _ (by norm_num)
    have h2 : (2 : Nat) ^ 64 < 10 ^ 20 := by norm_num
    omega
  · positivity

theorem dataLinePre_length_le (t n : Nat) (ht : t < 10 ^ 20) (hn : n < 1000) :
    (dataLinePre t n).length ≤ 56 := by
  have h1 := pad8_length_le t ht
  have h2 := decStr_length_le n 3 (by omega) (by omega)
  have e1 : ("[T+" : String).length = 3 := rfl
  have e2 : ("ms]" : String).length = 3 := rfl
  have e3 : (" FILE DATA [first " : String).length = 18 := rfl
  have e4 : (" bytes]: " : String).length = 9 := rfl
  simp only [dataLinePre, tstamp, String.length_append, e1, e2, e3, e4]
  omega

/-- The bytes dumped by a matched read-result event. -/
def readDumpBytes (cfg : TraceConfig) (actual_bytes buf_phys : Nat)
    (mem : Nat → Nat) : List Nat :=
  (List.range ((min (min cfg.file_read_hex_dump (actual_bytes : Int)) 512).toNat)).map
    (fun i => mem (buf_phys + i) % 256)

/-- C6: for a matched read-result event the result line is always
emitted; a hex-dump line follows exactly when
`min(file_read_hex_dump_bytes, actual_bytes)` is positive, and then the
number of bytes rendered — two uppercase hex digits each,
space-separated (`bytesField`) — equals
`min(file_read_hex_dump_bytes, actual_bytes, 512)`, the 512-byte
internal buffer cap. -/
theorem C6_read_hex_dump_length (cfg : TraceConfig) (st : GTState)
    (handle actual_bytes buf_phys : Nat) (mem : Nat → Nat) (now : Nat)
    (hact : st.pending_active = true) (hh : st.pending_handle = handle) :
    (min cfg.file_read_hex_dump (actual_bytes : Int) ≤ 0 →
      FileIOLogger_LogReadPost handle actual_bytes buf_phys mem now cfg st =
        { st with pending_active := false,
                  log := st.log ++
                    [readResultLine (DEBUGTRACE_GetElapsedMs st now)
                      (lookup_filename st handle) handle actual_bytes] })
    ∧ (0 < min cfg.file_read_hex_dump (actual_bytes : Int) →
      (FileIOLogger_LogReadPost handle actual_bytes buf_phys mem now cfg st =
        { st with pending_active := false,
                  log := st.log ++
                    [readResultLine (DEBUGTRACE_GetElapsedMs st now)
                      (lookup_filename st handle) handle actual_bytes,
                     dataLinePre (DEBUGTRACE_GetElapsedMs st now)
                        ((min (min cfg.file_read_hex_dump (actual_bytes : Int)) 512).toNat) ++
                       bytesField (readDumpBytes cfg actual_bytes buf_phys mem)] })
      ∧ (readDumpBytes cfg actual_bytes buf_phys mem).length =
          (min (min cfg.file_read_hex_dump (actual_bytes : Int)) 512).toNat) := by
  subst hh
  have hcond : (!st.pending_active ||
      decide (st.pending_handle ≠ st.pending_handle)) = false := by
    rw [hact]
    simp
  constructor
  · intro hle
    simp only [FileIOLogger_LogReadPost, hcond, Bool.false_eq_true, if_false,
      if_pos hle, DEBUGTRACE_Write]
    rfl
  · intro hpos
    have hnle : ¬ min cfg.file_read_hex_dump (actual_bytes : Int) ≤ 0 := by omega
    constructor
    · have hstep : FileIOLogger_LogReadPost st.pending_handle actual_bytes
          buf_phys mem now cfg st =
          { st with pending_active := false,
                    log := st.log ++
                      [readResultLine (DEBUGTRACE_GetElapsedMs st now)
                        (lookup_filename st st.pending_handle) st.pending_handle
                        actual_bytes] ++
                      [dataLinePre (DEBUGTRACE_GetElapsedMs st now)
                          ((min (min cfg.file_read_hex_dump (actual_bytes : Int)) 512).toNat) ++
                         hex_dump (readDumpBytes cfg actual_bytes buf_phys mem)
                           (512 * 3 + 64 -
                             (dataLinePre (DEBUGTRACE_GetElapsedMs st now)
                               ((min (min cfg.file_read_hex_dump
                                 (actual_bytes : Int)) 512).toNat)).length)] } := by
        simp only [FileIOLogger_LogReadPost, hcond, Bool.false_eq_true, if_false,
          if_neg hnle, DEBUGTRACE_Write, readDumpBytes]
        rfl
      have hlen : (readDumpBytes cfg actual_bytes buf_phys mem).length =
          (min (min cfg.file_read_hex_dump (actual_bytes : Int)) 512).toNat := by
        simp [readDumpBytes]
      have hto : (min (min cfg.file_read_hex_dump (actual_bytes : Int)) 512).toNat
          ≤ 512 := by omega
      have hpre : (dataLinePre (DEBUGTRACE_GetElapsedMs st now)
          ((min (min cfg.file_read_hex_dump (actual_bytes : Int)) 512).toNat)).length
          ≤ 56 :=
        dataLinePre_length_le _ _ (elapsed_lt_pow20 st now) (by omega)
      have hbound : (readDumpBytes cfg actual_bytes buf_phys mem).length ≤
          ((512 * 3 + 64 -
            (dataLinePre (DEBUGTRACE_GetElapsedMs st now)
              ((min (min cfg.file_read_hex_dump
                (actual_bytes : Int)) 512).toNat)).length) - 1) / 3 := by
        rw [hlen]
        omega
      rw [hstep, hex_dump_full _ _ hbound]
      simp [List.append_assoc]
    · simp [readDumpBytes]

theorem C6_read_hex_dump_length_witness :
    FileIOLogger_LogReadPost 5 4 2000 (fun a => a) 160
        { cfgOff with trace_file_io := true }
        { stActive with pending_active := true, pending_handle := 5 } =
      { stActive with pending_active := false, pending_handle := 5,
                      log := stActive.log ++
                        [readResultLine
                          (DEBUGTRACE_GetElapsedMs
                            { stActive with pending_active := true,
                                            pending_handle := 5 } 160)
                          (lookup_filename
                            { stActive with pending_active := true,
                                            pending_handle := 5 } 5) 5 4,
                         dataLinePre
                            (DEBUGTRACE_GetElapsedMs
                              { stActive with pending_active := true,
                                              pending_handle := 5 } 160)
                            ((min (min ({ cfgOff with
                              trace_file_io := true } : TraceConfig).file_read_hex_dump
                              (4 : Int)) 512).toNat) ++
                           bytesField (readDumpBytes
                             { cfgOff with trace_file_io := true } 4 2000
                             (fun a => a))] } := by
  have h := ((C6_read_hex_dump_length { cfgOff with trace_file_io := true }
    { stActive with pending_active := true, pending_handle := 5 }
    5 4 2000 (fun a => a) 160 rfl rfl).2 (by decide)).1
  exact h

/-! ## C3 — interactive-only activation gate -/

/-- C3: the gating behaviour of `ExecLogger_Log` with the
interactive-only accessor reporting true (its definition is missing
from the tree and is modelled from the spec, see
`trace_on_interactive_exec_only_default`): while disabled and with
`auto_trace_on_exec` on, a program-load event with a non-interactive
shell changes nothing and emits nothing; the identical event with an
interactive shell activates tracing, increments the depth and emits the
program-load line (at elapsed 0, the fresh epoch) followed by the
activation banner.  Once active the gate inputs are never consulted.
The config registration in `DEBUGTRACE_AddConfigSection`, however,
recognises no `trace_on_interactive_exec_only` option
(`debugtraceSectionOptionNames`) — the claim and the header/manual
describe an option the code never registers. -/
theorem C3_interactive_gate (cfg : TraceConfig) (st : GTState)
    (filename cmdline : Option String) (ss_val now : Nat)
    (hready : st.g_debugtrace_system_ready = true)
    (hdis : st.g_trace_enabled = false)
    (hauto : cfg.auto_trace_on_exec = true) :
    ("trace_on_interactive_exec_only" ∉ debugtraceSectionOptionNames)
    ∧ ExecLogger_Log filename cmdline false true ss_val now cfg st = st
    ∧ ((ExecLogger_Log filename cmdline true true ss_val now cfg st).g_trace_enabled
        = true
      ∧ (ExecLogger_Log filename cmdline true true ss_val now cfg st).log =
          st.log ++ [execLine 0 filename cmdline ss_val, activatedMarker]
      ∧ (ExecLogger_Log filename cmdline true true ss_val now cfg st).s_exec_depth =
          st.s_exec_depth + 1)
    ∧ (∀ (st' : GTState) (i1 o1 i2 o2 : Bool), st'.g_trace_enabled = true →
        ExecLogger_Log filename cmdline i1 o1 ss_val now cfg st' =
          ExecLogger_Log filename cmdline i2 o2 ss_val now cfg st') := by
  refine ⟨by decide, ?_, ?_, ?_⟩
  · simp [ExecLogger_Log, hready, hdis, hauto]
  · have hact : DEBUGTRACE_ActivateTrace now st =
        { st with g_epoch := now, g_epoch_set := true, g_trace_enabled := true } := by
      simp [DEBUGTRACE_ActivateTrace, set_epoch_now, hdis]
    refine ⟨?_, ?_, ?_⟩
    · simp [ExecLogger_Log, hready, hdis, hauto, hact, DEBUGTRACE_OnExecDepthPush,
        DEBUGTRACE_Write]
    · simp [ExecLogger_Log, hready, hdis, hauto, hact, DEBUGTRACE_OnExecDepthPush,
        DEBUGTRACE_Write, DEBUGTRACE_GetElapsedMs]
    · simp [ExecLogger_Log, hready, hdis, hauto, hact, DEBUGTRACE_OnExecDepthPush,
        DEBUGTRACE_Write]
  · intro st' i1 o1 i2 o2 hen
    simp [ExecLogger_Log, hen]

theorem C3_interactive_gate_witness :
    ExecLogger_Log (some "GAME.EXE") (some "") false true 0x1234 42 cfgOff stReady
      = stReady
    ∧ (ExecLogger_Log (some "GAME.EXE") (some "") true true 0x1234 42 cfgOff
        stReady).g_trace_enabled = true := by
  have h := C3_interactive_gate cfgOff stReady (some "GAME.EXE") (some "")
    0x1234 42 rfl rfl rfl
  exact ⟨h.2.1, h.2.2.1.1⟩

/-! ## C9 — line-format invariant -/

/-- A line is well-formed when it opens with the `[T+########ms]` stamp
for some elapsed value, or is exactly one of the four marker lines
(session start, session end, activation, deactivation) — so any line
that is not one of those four markers carries the elapsed-time stamp. -/
def lineOk (s : String) : Prop :=
  (∃ t, (tstamp t).data <+: s.data) ∨
    s = startedMarker ∨ s = endedMarker ∨ s = activatedMarker ∨
      s = deactivatedMarker

theorem lineOk_startedMarker : lineOk startedMarker := Or.inr (Or.inl rfl)

theorem lineOk_endedMarker : lineOk endedMarker := Or.inr (Or.inr (Or.inl rfl))

theorem lineOk_activatedMarker : lineOk activatedMarker :=
  Or.inr (Or.inr (Or.inr (Or.inl rfl)))

theorem lineOk_deactivatedMarker : lineOk deactivatedMarker :=
  Or.inr (Or.inr (Or.inr (Or.inr rfl)))

theorem lineOk_terminatedLine (t rc : Nat) (d : Int) :
    lineOk (terminatedLine t rc d) :=
  Or.inl ⟨t, by simp [terminatedLine, String.data_append, List.append_assoc]⟩

theorem lineOk_createLine (t : Nat) (fn : Option String) (attr : Nat) :
    lineOk (createLine t fn attr) :=
  Or.inl ⟨t, by simp [createLine, String.data_append, List.append_assoc]⟩

theorem lineOk_openLine (t : Nat) (fn : Option String) (m : Nat) :
    lineOk (openLine t fn m) :=
  Or.inl ⟨t, by simp [openLine, String.data_append, List.append_assoc]⟩

theorem lineOk_closeLine (t : Nat) (name : String) (h : Nat) :
    lineOk (closeLine t name h) :=
  Or.inl ⟨t, by simp [closeLine, String.data_append, List.append_assoc]⟩

theorem lineOk_readLine (t : Nat) (name : String) (h r d x : Nat) :
    lineOk (readLine t name h r d x) :=
  Or.inl ⟨t, by simp [readLine, String.data_append, List.append_assoc]⟩

theorem lineOk_readResultLine (t : Nat) (name : String) (h a : Nat) :
    lineOk (readResultLine t name h a) :=
  Or.inl ⟨t, by simp [readResultLine, String.data_append, List.append_assoc]⟩

theorem lineOk_dataLine (t n : Nat) (s : String) :
    lineOk (dataLinePre t n ++ s) :=
  Or.inl ⟨t, by simp [dataLinePre, String.data_append, List.append_assoc]⟩

theorem lineOk_execLine (t : Nat) (fn cl : Option String) (ssv : Nat) :
    lineOk (execLine t fn cl ssv) :=
  Or.inl ⟨t, by simp [execLine, String.data_append, List.append_assoc]⟩

theorem lineOk_instrLine (t cs ip : Nat) (bytes : List Nat) (r : Regs) :
    lineOk (instrLine t cs ip bytes r) :=
  Or.inl ⟨t, by simp [instrLine, String.data_append, List.append_assoc]⟩

theorem lineOk_intrLine (t n : Nat) (r : Regs) :
    lineOk (intrLine t n r) :=
  Or.inl ⟨t, by simp [intrLine, String.data_append, List.append_assoc]⟩

theorem lineOk_videoLine (t om nm : Nat) :
    lineOk (videoLine t om nm) :=
  Or.inl ⟨t, by simp [videoLine, String.data_append, List.append_assoc]⟩

theorem mem_append_singleton {l x : String} {L : List String}
    (h : l ∈ L ++ [x]) : l ∈ L ∨ l = x := by
  simpa [List.mem_append] using h

theorem traceStep_lines (cfg : TraceConfig) (st : GTState) (ev : TraceEvent) :
    ∀ l ∈ (traceStep cfg st ev).log, l ∈ st.log ∨ lineOk l := by
  intro l hl
  cases ev with
  | evInit ok now =>
    simp only [traceStep, DEBUGTRACE_Init, FileIOLogger_Init, DEBUGTRACE_Write,
      set_epoch_now] at hl
    split_ifs at hl <;>
      first
        | exact Or.inl hl
        | (rcases mem_append_singleton hl with h | rfl
           · exact Or.inl h
           · exact Or.inr lineOk_startedMarker)
  | evShutdown =>
    simp only [traceStep, DEBUGTRACE_Shutdown, FileIOLogger_Shutdown,
      DEBUGTRACE_Write] at hl
    split_ifs at hl <;>
      first
        | exact Or.inl hl
        | (rcases mem_append_singleton hl with h | rfl
           · exact Or.inl h
           · exact Or.inr lineOk_endedMarker)
  | evInstruction cs ip regs mem now =>
    simp only [traceStep, DEBUGTRACE_LogInstruction, InstructionLogger_Log,
      DEBUGTRACE_Write] at hl
    split_ifs at hl <;>
      first
        | exact Or.inl hl
        | (rcases mem_append_singleton hl with h | rfl
           · exact Or.inl h
           · exact Or.inr (lineOk_instrLine _ _ _ _ _))
  | evInterrupt n regs now =>
    simp only [traceStep, DEBUGTRACE_LogInterrupt, InterruptLogger_Log,
      DEBUGTRACE_Write] at hl
    split_ifs at hl <;>
      first
        | exact Or.inl hl
        | (rcases mem_append_singleton hl with h | rfl
           · exact Or.inl h
           · exact Or.inr (lineOk_intrLine _ _ _))
  | evFileCreate fn attr now =>
    simp only [traceStep, DEBUGTRACE_LogFileCreate, FileIOLogger_LogCreate,
      DEBUGTRACE_Write] at hl
    split_ifs at hl <;>
      first
        | exact Or.inl hl
        | (rcases mem_append_singleton hl with h | rfl
           · exact Or.inl h
           · exact Or.inr (lineOk_createLine _ _ _))
  | evFileOpen fn mode now =>
    simp only [traceStep, DEBUGTRACE_LogFileOpen, FileIOLogger_LogOpen,
      DEBUGTRACE_Write] at hl
    split_ifs at hl <;>
      first
        | exact Or.inl hl
        | (rcases mem_append_singleton hl with h | rfl
           · exact Or.inl h
           · exact Or.inr (lineOk_openLine _ _ _))
  | evRecordHandleOpen h fn =>
    simp only [traceStep, DEBUGTRACE_RecordHandleOpen,
      FileIOLogger_RecordHandle] at hl
    split_ifs at hl
    · exact Or.inl hl
    · rcases fn with _ | f
      · exact Or.inl hl
      · simp only at hl
        split_ifs at hl <;> exact Or.inl hl
  | evFileClose h now =>
    simp only [traceStep, DEBUGTRACE_LogFileClose, FileIOLogger_LogClose,
      DEBUGTRACE_Write] at hl
    split_ifs at hl <;>
      first
        | exact Or.inl hl
        | (rcases mem_append_singleton hl with hx | rfl
           · exact Or.inl hx
           · exact Or.inr (lineOk_closeLine _ _ _))
  | evFileReadPre h req ds dx now =>
    simp only [traceStep, DEBUGTRACE_LogFileReadPre, FileIOLogger_LogReadPre,
      DEBUGTRACE_Write] at hl
    split_ifs at hl <;>
      first
        | exact Or.inl hl
        | (rcases mem_append_singleton hl with hx | rfl
           · exact Or.inl hx
           · exact Or.inr (lineOk_readLine _ _ _ _ _ _))
  | evFileReadPost h act buf mem now =>
    simp only [traceStep, DEBUGTRACE_LogFileReadPost, FileIOLogger_LogReadPost,
      DEBUGTRACE_Write] at hl
    split_ifs at hl <;>
      first
        | exact Or.inl hl
        | (rcases mem_append_singleton hl with hx | rfl
           · exact Or.inl hx
           · exact Or.inr (lineOk_readResultLine _ _ _ _))
        | (rcases mem_append_singleton hl with hx | rfl
           · rcases mem_append_singleton hx with hy | rfl
             · exact Or.inl hy
             · exact Or.inr (lineOk_readResultLine _ _ _ _)
           · exact Or.inr (lineOk_dataLine _ _ _))
  | evExec fn cl ia io ssv now =>
    simp only [traceStep, DEBUGTRACE_LogExec, ExecLogger_Log,
      DEBUGTRACE_ActivateTrace, set_epoch_now, DEBUGTRACE_OnExecDepthPush,
      DEBUGTRACE_Write] at hl
    split_ifs at hl <;>
      first
        | exact Or.inl hl
        | (rcases mem_append_singleton hl with hx | rfl
           · exact Or.inl hx
           · exact Or.inr (lineOk_execLine _ _ _ _))
        | (rcases mem_append_singleton hl with hx | rfl
           · rcases mem_append_singleton hx with hy | rfl
             · exact Or.inl hy
             · exact Or.inr (lineOk_execLine _ _ _ _)
           · exact Or.inr lineOk_activatedMarker)
  | evVideoModeSwitch om nm now =>
    simp only [traceStep, DEBUGTRACE_LogVideoModeSwitch, VideoModeLogger_Log,
      DEBUGTRACE_Write] at hl
    split_ifs at hl <;>
      first
        | exact Or.inl hl
        | (rcases mem_append_singleton hl with hx | rfl
           · exact Or.inl hx
           · exact Or.inr (lineOk_videoLine _ _ _))
  | evExecDepthPush =>
    simp only [traceStep, DEBUGTRACE_OnExecDepthPush] at hl
    split_ifs at hl <;> exact Or.inl hl
  | evProgramTerminate rc now =>
    simp only [traceStep, DEBUGTRACE_OnProgramTerminate, DEBUGTRACE_Write] at hl
    split_ifs at hl <;>
      first
        | exact Or.inl hl
        | (rcases mem_append_singleton hl with hx | rfl
           · exact Or.inl hx
           · exact Or.inr (lineOk_terminatedLine _ _ _))
        | (rcases mem_append_singleton hl with hx | rfl
           · rcases mem_append_singleton hx with hy | rfl
             · exact Or.inl hy
             · exact Or.inr (lineOk_terminatedLine _ _ _)
           · exact Or.inr lineOk_deactivatedMarker)

/-- C9 (amended): in any run of the tracing subsystem every line handed
to the log sink either begins with the `[T+########ms]` elapsed-time
stamp or is exactly one of the four marker lines (session start,
session end, activation, deactivation) — so every event line carries
the stamp — and each of those four marker lines begins with the literal
`[debugtrace]` prefix instead.  The original claim that *every* line
(markers included) carries the `[T+…ms]` prefix is refuted by the
marker lines. -/
theorem C9_line_format_amended (cfg : TraceConfig) (st : GTState)
    (evs : List TraceEvent) (h0 : ∀ l ∈ st.log, lineOk l) :
    (∀ l ∈ (runTrace cfg st evs).log, lineOk l)
    ∧ ("[debugtrace]".data <+: startedMarker.data)
    ∧ ("[debugtrace]".data <+: endedMarker.data)
    ∧ ("[debugtrace]".data <+: activatedMarker.data)
    ∧ ("[debugtrace]".data <+: deactivatedMarker.data) := by
  refine ⟨?_, by decide, by decide, by decide, by decide⟩
  induction evs generalizing st with
  | nil => exact h0
  | cons e r ih =>
    have hstep : ∀ l ∈ (traceStep cfg st e).log, lineOk l := by
      intro l hl
      rcases traceStep_lines cfg st e l hl with h | h
      · exact h0 l h
      · exact h
    exact ih (traceStep cfg st e) hstep

/-- C9 counterexample: the deactivation marker emitted by
`DEBUGTRACE_OnProgramTerminate` is handed to the sink but does not
begin with the `[T+` stamp the claim requires of every line. -/
theorem C9_line_format_counterexample :
    deactivatedMarker ∈ (DEBUGTRACE_OnProgramTerminate 0 160 stActive).log
    ∧ ¬ ("[T+".data <+: deactivatedMarker.data) := by
  constructor
  · decide
  · decide

theorem C9_line_format_amended_witness : lineOk startedMarker := by
  have h := C9_line_format_amended { cfgOff with auto_trace_on_exec := false }
    stReady [TraceEvent.evInit true 0] (by simp [stReady])
  exact h.1 startedMarker (by decide)
